import Mathlib

/-!
Verification of the MemeTrader decision pipeline.

This file gives a shallow embedding, in Lean 4, of the core decision
pipeline of the MemeTrader repository: the feature extractor and momentum
score (`app/signals/features.py`, `app/signals/regime.py`), the token
state machine and re-entry lockout (`app/orchestrator/state_machine.py`),
the rule policy (`app/policies/rules_v0.py`), the risk validator
(`app/orchestrator/validator.py`, `app/orchestrator/risk.py`), the entry
ranker (`app/orchestrator/runner.py`) and the backtest metrics
(`app/backtest/metrics.py`), together with theorems settling the stated
properties of those components.

Conventions: Python floats are modelled as rationals (with real numbers
used only where the source computes logarithms), Python ints as integers,
optional values as `Option`, and Python dict-shaped records as structures
carrying the keys the pipeline reads.  Helper functions reproduce the
Python semantics the code relies on: negative-index slicing, truncating
`int(...)` conversion, banker's rounding of `round(...)`, truthiness of
optional floats, and `statistics.median` / `statistics.mean`.
-/

namespace MemeTrader

/-- Python slice endpoint resolution: a negative index counts from the end
of the list and results are clamped into `[0, n]`. -/
def pyIdx (n : ℕ) (a : ℤ) : ℕ :=
  if a < 0 then ((n : ℤ) + a).toNat else min n a.toNat

/-- Python slice `xs[i:j]` with possibly negative endpoints. -/
def pySlice {α : Type} (xs : List α) (i j : ℤ) : List α :=
  let s := pyIdx xs.length i
  let e := pyIdx xs.length j
  (xs.drop s).take (e - s)

/-- Python slice `xs[i:]` with a possibly negative start. -/
def pySliceFrom {α : Type} (xs : List α) (i : ℤ) : List α :=
  xs.drop (pyIdx xs.length i)

/-- Python element access `xs[a]` for a possibly negative index, with a
default for the out-of-range case (which the embedded code never hits). -/
def pyGetQ (xs : List ℚ) (a : ℤ) : ℚ :=
  let idx := if a < 0 then (xs.length : ℤ) + a else a
  xs.getD idx.toNat 0

/-- Python `int(x)` on a float: truncation toward zero. -/
def pyInt (q : ℚ) : ℤ :=
  if q < 0 then ⌈q⌉ else ⌊q⌋

/-- Python `round(x)` on a float with no digits argument: round half to
even, returning an int. -/
def pyRound (q : ℚ) : ℤ :=
  let f := ⌊q⌋
  let frac := q - f
  if frac < 1 / 2 then f
  else if 1 / 2 < frac then f + 1
  else if f % 2 = 0 then f else f + 1

/-- Python truthiness of an optional float: `None` and `0.0` are falsy. -/
def pyTruthyQ : Option ℚ → Bool
  | none => false
  | some x => x ≠ 0

/-- Python `a or b` on optional floats. -/
def pyOrQ (a b : Option ℚ) : Option ℚ :=
  if pyTruthyQ a then a else b

/-- Python `max(xs)` on a nonempty list, with a default for `[]`. -/
def maxListD : List ℚ → ℚ → ℚ
  | [], d => d
  | x :: xs, _ => xs.foldl max x

/-- Python `min(xs)` on a nonempty list, with a default for `[]`. -/
def minListD : List ℚ → ℚ → ℚ
  | [], d => d
  | x :: xs, _ => xs.foldl min x

/-- Python `statistics.mean`. -/
def meanQ (l : List ℚ) : ℚ :=
  l.sum / (l.length : ℚ)

/-- Python `statistics.median`: sort, then take the middle element (odd
length) or the average of the two middle elements (even length). -/
def medianQ (l : List ℚ) : ℚ :=
  let s := l.mergeSort (fun a b => decide (a ≤ b))
  let n := s.length
  if n % 2 = 1 then s.getD (n / 2) 0
  else (s.getD (n / 2 - 1) 0 + s.getD (n / 2) 0) / 2

/-- Enumeration of a list starting at a given index, as Python object
identity for list entries processed in place. -/
def enumFrom {α : Type} : ℕ → List α → List (ℕ × α)
  | _, [] => []
  | i, x :: xs => (i, x) :: enumFrom (i + 1) xs

/-! Data model, from `app/data/mock_schemas.py` and
`app/orchestrator/state_machine.py`. -/

/-- OHLCV candle. -/
structure Candle where
  t : ℤ
  o : ℚ
  h : ℚ
  l : ℚ
  c : ℚ
  v : ℚ

/-- Per-pair market statistics. -/
structure PairStats where
  pair_id : String
  token_mint : String
  price_usd : ℚ
  liquidity_usd : ℚ
  volume_5m : ℚ
  txns_5m : ℤ

/-- Support/resistance zone. -/
structure Zone where
  low : ℚ
  high : ℚ
  strength : ℤ

/-- Feature map produced by `compute_features`, as a record of the keys
the pipeline reads.  `chain_override` and `provisional_candidate` are the
chain-overlay flags merged into the map by the snapshot consumer; the
extractor itself leaves them false. -/
structure Features where
  highest_close : ℚ
  lowest_close : ℚ
  avg_volume : ℚ
  breakout : Bool
  breakout_strict : Bool
  price_range_ratio : ℚ
  range_compressed : Bool
  expansion_pct : ℚ
  price_expanded : Bool
  return_pct : ℚ
  volume_accel : ℚ
  range_ratio : ℚ
  regime_score : ℤ
  chain_override : Bool
  provisional_candidate : Bool

/-- Per-tick snapshot of one instrument. -/
structure Snapshot where
  pair : PairStats
  candles : List Candle
  support_zones : List Zone
  resistance_zones : List Zone
  features : Features
  regime_score : ℤ
  now_ts : ℤ
  candle_index : Option ℤ
  last_close : ℚ
  last_low : ℚ
  last_high : ℚ
  resistance_levels : List Zone
  support_level : Option Zone

/-- Per-instrument lifecycle state (`TokenState` dataclass). -/
structure TokenState where
  status : String
  probe_entry_price : Option ℚ
  probe_entry_low : Option ℚ
  add_entry_price : Option ℚ
  position_usd : ℚ
  time_in_trade : ℤ
  cooldown_left : ℤ
  scale_out_stage : ℤ
  last_exit_ts : Option ℤ
  last_exit_price : Option ℚ
  last_exit_index : Option ℤ
  entry_index : Option ℤ
  last_exit_was_stop : Bool
  pending_breakout_index : Option ℤ
  pending_breakout_level : Option ℚ
  pending_breakout_expires_index : Option ℤ
  entry_price : Option ℚ
  max_favorable_price : Option ℚ
  progress_hit : Bool
  progress_deadline_index : Option ℤ

/-- Field defaults of the `TokenState` dataclass. -/
def initialTokenState : TokenState where
  status := "SCOUT"
  probe_entry_price := none
  probe_entry_low := none
  add_entry_price := none
  position_usd := 0
  time_in_trade := 0
  cooldown_left := 0
  scale_out_stage := 0
  last_exit_ts := none
  last_exit_price := none
  last_exit_index := none
  entry_index := none
  last_exit_was_stop := false
  pending_breakout_index := none
  pending_breakout_level := none
  pending_breakout_expires_index := none
  entry_price := none
  max_favorable_price := none
  progress_hit := false
  progress_deadline_index := none

/-- Action proposal produced by the policy (`app/policies/base.py`).
The `guards` dict carries integer values only. -/
structure ActionProposal where
  action : String
  reason_codes : List String
  guards : List (String × ℤ)
  expires_at : Option ℤ

/-- Configuration values the pipeline reads, flattened from the nested
config dict: `positioning.*`, `engine.*`, `reentry.*`, `rules.*`,
`rules.progress.*`, `stops.*`, `risk.*` and `breakout.*`. -/
structure Config where
  capital_usd : ℚ
  probe_pct : ℚ
  add_pct : ℚ
  tp1_scale_out_pct : ℚ
  tp2_scale_out_pct : ℚ
  cooldown_candles : ℤ
  poll_interval_sec : ℤ
  lockout_candles : ℤ
  min_breakout_pct : ℚ
  candle_seconds : ℤ
  vol_mult_unlock : ℚ
  confirm_min_close_above_pct : ℚ
  confirm_max_retrace_pct : ℚ
  add_trigger_up_pct : ℚ
  time_stop_candles : ℤ
  top_n_per_tick : ℤ
  min_candidates_before_rank : ℤ
  momentum_lookback : ℤ
  min_move_pct : ℚ
  max_wait_candles : ℤ
  breakeven_after_progress : Bool
  trail_after_progress : Bool
  trail_lookback_lows : ℤ
  stop_buffer_pct : ℚ
  min_liquidity_usd : ℚ
  max_slippage_bps : ℚ
  chain_override_score_bonus : ℚ
  weak_breakout_score_penalty : ℚ

/-! Regime score, from `app/signals/regime.py`. -/

/-- Clamp helper (`_clamp`). -/
def clampQ (low high value : ℚ) : ℚ :=
  max low (min high value)

/-- The `compute_regime_score` function: start at 50, add three clamped
contributions, clamp the total to `[0, 100]`, round to nearest int. -/
def compute_regime_score (return_pct volume_accel range_ratio : ℚ) : ℤ :=
  let score : ℚ := 50
  let score := score + clampQ (-30) 30 (return_pct * 2000)
  let score := score + clampQ (-20) 20 (volume_accel * 20)
  let score := score + clampQ (-20) 20 ((range_ratio - 1) * 20)
  let score := clampQ 0 100 score
  pyRound score

/-! Backtest metrics, from `app/backtest/metrics.py`. -/

/-- One trade record, carrying the keys `compute_metrics` reads. -/
structure Trade where
  pnl_usd : ℚ
  return_pct : ℚ

/-- Equity values appended after the starting point by `equity_curve`. -/
def equityTail (equity : ℚ) : List Trade → List ℚ
  | [] => []
  | t :: ts =>
    let e := equity + t.pnl_usd
    e :: equityTail e ts

/-- The `equity_curve` function. -/
def equity_curve (starting_capital : ℚ) (trades : List Trade) : List ℚ :=
  starting_capital :: equityTail starting_capital trades

/-- One step of the `max_drawdown` loop, carrying `(peak, max_dd)`. -/
def mddStep (acc : ℚ × ℚ) (value : ℚ) : ℚ × ℚ :=
  let peak := if value > acc.1 then value else acc.1
  let drawdown := if peak > 0 then (peak - value) / peak else 0
  (peak, if drawdown > acc.2 then drawdown else acc.2)

/-- The `max_drawdown` function. -/
def max_drawdown (curve : List ℚ) : ℚ :=
  (curve.foldl mddStep (curve.headD 0, 0)).2

/-- The `profit_factor` function; `float("inf")` is modelled as the top
element of `WithTop ℚ`. -/
def profit_factor (trades : List Trade) : WithTop ℚ :=
  let wins := ((trades.filter fun t => t.pnl_usd > 0).map Trade.pnl_usd).sum
  let losses := ((trades.filter fun t => t.pnl_usd < 0).map fun t => -t.pnl_usd).sum
  if losses = 0 then (if wins > 0 then ⊤ else 0)
  else ((wins / losses : ℚ) : WithTop ℚ)

/-- The `win_rate` function. -/
def win_rate (trades : List Trade) : ℚ :=
  if trades.isEmpty then 0
  else ((trades.filter fun t => t.pnl_usd > 0).length : ℚ) / (trades.length : ℚ)

/-- The `avg_trade_return` function. -/
def avg_trade_return (trades : List Trade) : ℚ :=
  if trades.isEmpty then 0
  else (trades.map Trade.return_pct).sum / (trades.length : ℚ)

/-- Result record of `compute_metrics`. -/
structure Metrics where
  total_return_pct : ℚ
  max_drawdown_pct : ℚ
  profit_factor : WithTop ℚ
  win_rate : ℚ
  avg_trade_return_pct : ℚ
  trade_count : ℕ

/-- The `compute_metrics` function. -/
def compute_metrics (starting_capital : ℚ) (trades : List Trade) : Metrics :=
  let curve := equity_curve starting_capital trades
  { total_return_pct :=
      if curve = [] then 0 else curve.getLastD 0 / starting_capital - 1
    max_drawdown_pct := max_drawdown curve
    profit_factor := profit_factor trades
    win_rate := win_rate trades
    avg_trade_return_pct := avg_trade_return trades
    trade_count := trades.length }

/-! Feature extractor, from `app/signals/features.py`. -/

/-- Feature map returned by `compute_features` when fewer than 2 candles
are supplied. -/
def emptyFeatures : Features where
  highest_close := 0
  lowest_close := 0
  avg_volume := 0
  breakout := false
  breakout_strict := false
  price_range_ratio := 1
  range_compressed := false
  expansion_pct := 0
  price_expanded := false
  return_pct := 0
  volume_accel := 0
  range_ratio := 1
  regime_score := 0
  chain_override := false
  provisional_candidate := false

/-- The `compute_features` function.  The `vol_multiplier` parameter is
accepted but, as in the source, never read.  The chain-overlay flags are
not part of the extractor's output dict and are left false here. -/
def compute_features (candles : List Candle) (lookback : ℤ)
    (vol_multiplier : ℚ) (compression_max_range_ratio : ℚ := 5 / 4)
    (compression_lookback : Option ℤ := none)
    (expansion_min_pct : ℚ := 3 / 50)
    (expansion_reference : String := "highest_close") : Features :=
  let _ := vol_multiplier
  let _ := expansion_reference
  if candles.length < 2 then emptyFeatures
  else
    let closes := candles.map Candle.c
    let volumes := candles.map Candle.v
    let ranges := candles.map fun cd => cd.h - cd.l
    let current_close := closes.getLastD 0
    let current_vol := volumes.getLastD 0
    let current_range := ranges.getLastD 0
    let lookback_window :=
      if closes.length > 1 then pySlice closes (-(lookback + 1)) (-1) else closes
    let vol_window :=
      if volumes.length > 1 then pySlice volumes (-(lookback + 1)) (-1) else volumes
    let range_window :=
      if ranges.length > 1 then pySlice ranges (-(lookback + 1)) (-1) else ranges
    let lookback_window := if lookback_window = [] then closes.dropLast else lookback_window
    let vol_window := if vol_window = [] then volumes.dropLast else vol_window
    let range_window := if range_window = [] then ranges.dropLast else range_window
    let highest_close := if lookback_window = [] then current_close else maxListD lookback_window 0
    let lowest_close := if lookback_window = [] then current_close else minListD lookback_window 0
    let avg_vol := if vol_window = [] then current_vol else meanQ vol_window
    let avg_range := if range_window = [] then current_range else meanQ range_window
    let ref_lookback :=
      match compression_lookback with
      | some k => if 0 < k then k else lookback
      | none => lookback
    let ref_window :=
      if closes.length > 1 then pySlice closes (-(ref_lookback + 1)) (-1) else closes
    let ref_window := if ref_window = [] then closes.dropLast else ref_window
    let ref_high := if ref_window = [] then current_close else maxListD ref_window 0
    let ref_low := if ref_window = [] then current_close else minListD ref_window 0
    let price_range_ratio := if ref_low > 0 then ref_high / ref_low else 1
    let range_compressed := decide (price_range_ratio ≤ compression_max_range_ratio)
    let expansion_reference_value := ref_high
    let expansion_pct :=
      if expansion_reference_value > 0 then current_close / expansion_reference_value - 1 else 0
    let price_expanded := decide (expansion_pct ≥ expansion_min_pct)
    let breakout_strict := range_compressed && price_expanded
    let return_pct :=
      if (closes.length : ℤ) > lookback then
        let prior_close := pyGetQ closes (-(lookback + 1))
        if prior_close > 0 then current_close / prior_close - 1 else 0
      else 0
    let volume_accel := if avg_vol > 0 then current_vol / avg_vol - 1 else 0
    let range_ratio := if avg_range > 0 then current_range / avg_range else 1
    { highest_close := highest_close
      lowest_close := lowest_close
      avg_volume := avg_vol
      breakout := breakout_strict
      breakout_strict := breakout_strict
      price_range_ratio := price_range_ratio
      range_compressed := range_compressed
      expansion_pct := expansion_pct
      price_expanded := price_expanded
      return_pct := return_pct
      volume_accel := volume_accel
      range_ratio := range_ratio
      regime_score := compute_regime_score return_pct volume_accel range_ratio
      chain_override := false
      provisional_candidate := false }

/-- Relative ranges `(h - l) / c` of the candles whose close is positive,
as collected by the loop in `momentum_score`. -/
def relRanges (cds : List Candle) : List ℚ :=
  cds.filterMap fun cd => if cd.c ≤ 0 then none else some ((cd.h - cd.l) / cd.c)

/-- The `momentum_score` function.  All arithmetic except the two
`log1p` terms stays rational; `log1p x` is `Real.log (1 + x)`. -/
noncomputable def momentum_score (candles : List Candle) (lookback : ℤ) : ℝ :=
  if (candles.length : ℤ) < lookback + 1 ∨ lookback ≤ 0 then 0
  else
    let window := pySliceFrom candles (-(lookback + 1))
    let close_now := ((window.getLast?.map Candle.c).getD 0 : ℚ)
    let close_then := ((window.head?.map Candle.c).getD 0 : ℚ)
    if close_then ≤ 0 then 0
    else
      let ret := close_now / close_then - 1
      let vols := window.dropLast.map Candle.v
      let median_vol := if vols = [] then 0 else medianQ vols
      let vol_mult := if median_vol > 0 then vols.getLastD 0 / median_vol else 1
      let ranges := relRanges window.dropLast
      let median_range := if ranges = [] then 0 else medianQ ranges
      let range_now :=
        (((window.getLast?.map Candle.h).getD 0 : ℚ) - ((window.getLast?.map Candle.l).getD 0 : ℚ))
          / max close_now (1 / 1000000000)
      let range_mult := if median_range > 0 then range_now / median_range else 1
      let score : ℝ := 100 * (ret : ℝ)
      let score := if median_vol > 0 then
          score + 10 * Real.log (1 + (max 0 (vol_mult - 1) : ℚ)) else score
      let score := if median_range > 0 then
          score + 5 * Real.log (1 + (max 0 (range_mult - 1) : ℚ)) else score
      score

/-- Modelled from the spec: the momentum-score formula as the
specification states it, with `volume_mult` comparing the LATEST bar's
volume to the median volume of the preceding window.  This definition
follows the spec's words (not the source) and exists to be compared with
`momentum_score`. -/
noncomputable def momentumScoreSpecFormula (candles : List Candle) (lookback : ℤ) : ℝ :=
  if (candles.length : ℤ) < lookback + 1 ∨ lookback ≤ 0 then 0
  else
    let window := pySliceFrom candles (-(lookback + 1))
    let close_now := ((window.getLast?.map Candle.c).getD 0 : ℚ)
    let close_then := ((window.head?.map Candle.c).getD 0 : ℚ)
    if close_then ≤ 0 then 0
    else
      let ret := close_now / close_then - 1
      let vols := window.dropLast.map Candle.v
      let median_vol := if vols = [] then 0 else medianQ vols
      let latest_vol := ((window.getLast?.map Candle.v).getD 0 : ℚ)
      let volume_mult := if median_vol > 0 then latest_vol / median_vol else 1
      let ranges := relRanges window.dropLast
      let median_range := if ranges = [] then 0 else medianQ ranges
      let range_now :=
        (((window.getLast?.map Candle.h).getD 0 : ℚ) - ((window.getLast?.map Candle.l).getD 0 : ℚ))
          / max close_now (1 / 1000000000)
      let range_mult := if median_range > 0 then range_now / median_range else 1
      let score : ℝ := 100 * (ret : ℝ)
      let score := if median_vol > 0 then
          score + 10 * Real.log (1 + (max 0 (volume_mult - 1) : ℚ)) else score
      let score := if median_range > 0 then
          score + 5 * Real.log (1 + (max 0 (range_mult - 1) : ℚ)) else score
      score

/-! Token state machine, from `app/orchestrator/state_machine.py`. -/

/-- The `infer_interval_sec` function: median positive timestamp delta of
consecutive candles, defaulting to 60. -/
def infer_interval_sec (candles : List Candle) : ℤ :=
  let diffs := (candles.zip candles.tail).filterMap fun p =>
    let diff : ℤ := p.2.t - p.1.t
    if diff > 0 then some diff else none
  if diffs = [] then 60
  else pyInt (medianQ (diffs.map fun d => (d : ℚ)))

/-- The `_lockout_candles` helper: the configured lockout, tripled after
a stop-loss exit. -/
def lockoutCandles (cfg : Config) (last_exit_was_stop : Bool) : ℤ :=
  let lockout := cfg.lockout_candles
  if last_exit_was_stop then lockout * 3 else lockout

/-- The `_lockout_expired` helper. -/
def lockoutExpired (now_ts : ℤ) (last_exit_ts : Option ℤ) (now_index : Option ℤ)
    (last_exit_index : Option ℤ) (cfg : Config) (interval_sec : ℤ)
    (last_exit_was_stop : Bool) : Bool :=
  let lc := lockoutCandles cfg last_exit_was_stop
  if lc ≤ 0 then true
  else
    match now_index, last_exit_index with
    | some ni, some lei => decide (ni - lei ≥ lc)
    | _, _ =>
      match last_exit_ts with
      | none => true
      | some lts => decide (now_ts ≥ lts + lc * interval_sec)

/-- The `update_reentry_lockout` procedure: clears the stop flag once the
(tripled) lockout has expired. -/
def update_reentry_lockout (state : TokenState) (now_ts : ℤ) (cfg : Config)
    (interval_sec : ℤ) (now_index : Option ℤ) : TokenState :=
  if !state.last_exit_was_stop then state
  else if lockoutExpired now_ts state.last_exit_ts now_index state.last_exit_index
      cfg interval_sec true then
    { state with last_exit_was_stop := false }
  else state

/-- The `clear_pending_breakout` procedure. -/
def clear_pending_breakout (state : TokenState) : TokenState :=
  { state with
    pending_breakout_index := none
    pending_breakout_level := none
    pending_breakout_expires_index := none }

/-- The `can_reenter` function. -/
def can_reenter (now_ts : ℤ) (last_exit_ts : Option ℤ) (last_exit_index : Option ℤ)
    (last_exit_price : Option ℚ) (current_close : ℚ) (cfg : Config)
    (vol_ok : Bool := false) (last_exit_was_stop : Bool := false)
    (interval_sec : Option ℤ := none) (now_index : Option ℤ := none) : Bool :=
  match last_exit_price with
  | none => true
  | some lep =>
    if last_exit_ts = none ∧ last_exit_index = none then true
    else
      let lc := lockoutCandles cfg last_exit_was_stop
      let min_breakout := cfg.min_breakout_pct
      let candle_seconds :=
        match interval_sec with
        | some s => if s ≠ 0 then s else cfg.candle_seconds
        | none => cfg.candle_seconds
      if lc ≤ 0 then true
      else
        match now_index, last_exit_index with
        | some ni, some lei =>
          if ni - lei < lc then
            if current_close ≥ lep * (1 + min_breakout) then true
            else if vol_ok then true
            else false
          else true
        | _, _ =>
          match last_exit_ts with
          | none => true
          | some lts =>
            let lockout_until := lts + lc * candle_seconds
            if now_ts < lockout_until then
              if current_close ≥ lep * (1 + min_breakout) then true
              else if vol_ok then true
              else false
            else true

/-- The `advance_time` procedure. -/
def advance_time (state : TokenState) : TokenState :=
  let state :=
    if state.status = "PROBE" ∨ state.status = "TRADE" then
      { state with time_in_trade := state.time_in_trade + 1 }
    else state
  if state.status = "COOLDOWN" ∧ state.cooldown_left > 0 then
    let cl := state.cooldown_left - 1
    if cl ≤ 0 then { state with status := "SCOUT", cooldown_left := 0 }
    else { state with cooldown_left := cl }
  else state

/-- The `apply_action` procedure.  An unrecognised action leaves the
state unchanged. -/
def apply_action (state : TokenState) (action : String) (snapshot : Snapshot)
    (cfg : Config) (exit_reason_codes : Option (List String) := none) : TokenState :=
  if action = "PROBE_BUY" then
    let s := clear_pending_breakout state
    { s with
      status := "PROBE"
      probe_entry_price := some snapshot.last_close
      probe_entry_low := some snapshot.last_low
      position_usd := cfg.capital_usd * cfg.probe_pct
      time_in_trade := 0
      scale_out_stage := 0
      entry_index := snapshot.candle_index
      entry_price := some snapshot.last_close
      max_favorable_price := some snapshot.last_close
      progress_hit := false
      progress_deadline_index :=
        match snapshot.candle_index with
        | some ei => if cfg.max_wait_candles > 0 then some (ei + cfg.max_wait_candles) else none
        | none => none }
  else if action = "ADD_BUY" then
    let s := clear_pending_breakout state
    { s with
      status := "TRADE"
      add_entry_price := some snapshot.last_close
      position_usd := s.position_usd + cfg.capital_usd * cfg.add_pct
      entry_index := if s.entry_index = none then snapshot.candle_index else s.entry_index
      entry_price := if s.entry_price = none then some snapshot.last_close else s.entry_price }
  else if action = "SCALE_OUT_20" then
    let scale_pct :=
      if state.scale_out_stage = 0 then cfg.tp1_scale_out_pct else cfg.tp2_scale_out_pct
    { state with
      position_usd := max 0 (state.position_usd * (1 - scale_pct))
      scale_out_stage := state.scale_out_stage + 1 }
  else if action = "EXIT_FULL" then
    let s := clear_pending_breakout state
    { s with
      status := "COOLDOWN"
      cooldown_left := cfg.cooldown_candles
      probe_entry_price := none
      probe_entry_low := none
      add_entry_price := none
      position_usd := 0
      time_in_trade := 0
      scale_out_stage := 0
      entry_index := none
      entry_price := none
      max_favorable_price := none
      progress_hit := false
      progress_deadline_index := none
      last_exit_ts := some snapshot.now_ts
      last_exit_price := some snapshot.last_close
      last_exit_index := snapshot.candle_index
      last_exit_was_stop :=
        match exit_reason_codes with
        | none => false
        | some codes => if codes = [] then false else decide ("STRUCT_STOP" ∈ codes) }
  else state

/-- One orchestrator-driven mutation of a `TokenState`: either the
per-tick `advance_time` call or an `apply_action` call. -/
inductive EngineStep where
  | advance : EngineStep
  | act (action : String) (snapshot : Snapshot) (cfg : Config)
      (exit_reason_codes : Option (List String)) : EngineStep

/-- Apply one engine step to a token state. -/
def stepState (state : TokenState) : EngineStep → TokenState
  | .advance => advance_time state
  | .act action snapshot cfg codes => apply_action state action snapshot cfg codes

/-- Run a sequence of engine steps from a starting state. -/
def runSteps (state : TokenState) (steps : List EngineStep) : TokenState :=
  steps.foldl stepState state

/-! Rule policy, from `app/policies/rules_v0.py`.  The Python function
mutates the passed-in state (pending-breakout fields, re-entry flag and
progress bookkeeping), so the embedding returns the proposal together
with the updated state. -/

/-- Volume-spike override computed in the SCOUT strict-breakout branch of
`propose_action`. -/
def scoutVolOk (snapshot : Snapshot) (cfg : Config) : Bool :=
  let avg_vol := snapshot.features.avg_volume
  let current_vol := match snapshot.candles.getLast? with
    | some cd => cd.v
    | none => 0
  let vol_mult := cfg.vol_mult_unlock
  if vol_mult > 0 ∧ avg_vol > 0 then decide (current_vol > vol_mult * avg_vol)
  else false

/-- Progress sub-protocol shared verbatim by the PROBE and TRADE branches
of `propose_action`: favorable-excursion tracking, the progress deadline
stop, and the breakeven/trailing stop after progress.  Returns an exit
proposal when a stop fires, plus the mutated state. -/
def progressCheck (snapshot : Snapshot) (state : TokenState) (cfg : Config)
    (guards : List (String × ℤ)) (expires_at : ℤ) :
    Option ActionProposal × TokenState :=
  let entry_price := pyOrQ state.entry_price state.probe_entry_price
  if pyTruthyQ entry_price then
    let ep := entry_price.getD 0
    let mfp0 := match state.max_favorable_price with
      | none => ep
      | some m => m
    let state := { state with max_favorable_price := some (max mfp0 snapshot.last_close) }
    let min_move := cfg.min_move_pct
    let max_wait := cfg.max_wait_candles
    let state :=
      if !state.progress_hit ∧ snapshot.last_high ≥ ep * (1 + min_move) then
        { state with progress_hit := true }
      else state
    if !state.progress_hit then
      let deadline := state.progress_deadline_index
      let dState :=
        if deadline = none ∧ state.entry_index ≠ none ∧ max_wait > 0 then
          let d := state.entry_index.getD 0 + max_wait
          (some d, { state with progress_deadline_index := some d })
        else (deadline, state)
      match dState.1, snapshot.candle_index with
      | some d, some ci =>
        if ci ≥ d then
          (some ⟨"EXIT_FULL", ["PROGRESS_STOP"], guards, some expires_at⟩, dState.2)
        else (none, dState.2)
      | _, _ => (none, dState.2)
    else
      let stop_level : Option ℚ := if cfg.breakeven_after_progress then some ep else none
      let stop_level :=
        if cfg.trail_after_progress then
          let lookback_lows := cfg.trail_lookback_lows
          if lookback_lows > 0 ∧ (snapshot.candles.length : ℤ) ≥ lookback_lows + 1 then
            let lows := (pySlice snapshot.candles (-(lookback_lows + 1)) (-1)).map Candle.l
            if lows = [] then stop_level
            else
              let trail_low := minListD lows 0
              match stop_level with
              | some sl => some (max sl trail_low)
              | none => some trail_low
          else stop_level
        else stop_level
      match stop_level with
      | some sl =>
        if snapshot.last_close < sl then
          (some ⟨"EXIT_FULL", ["TRAIL_STOP"], guards, some expires_at⟩, state)
        else (none, state)
      | none => (none, state)
  else (none, state)

/-- Tail of the PROBE branch of `propose_action`: structural stop, then
the add trigger, defaulting to HOLD. -/
def probeAfterProgress (snapshot : Snapshot) (st : TokenState) (cfg : Config)
    (guards : List (String × ℤ)) (expires_at : ℤ) : ActionProposal × TokenState :=
  let stop_buffer := cfg.stop_buffer_pct
  let struct_hit :=
    match st.probe_entry_low with
    | some pel => decide (snapshot.last_close < pel * (1 - stop_buffer))
    | none => false
  if struct_hit then (⟨"EXIT_FULL", ["STRUCT_STOP"], guards, some expires_at⟩, st)
  else
    let add_trigger := cfg.add_trigger_up_pct
    let add_hit :=
      if pyTruthyQ st.probe_entry_price ∧ st.probe_entry_low ≠ none then
        let threshold := st.probe_entry_price.getD 0 * (1 + add_trigger)
        decide (snapshot.last_close ≥ threshold ∧ snapshot.last_close > st.probe_entry_low.getD 0)
      else false
    if add_hit then (⟨"ADD_BUY", ["ADD_TRIGGER"], guards, some expires_at⟩, st)
    else (⟨"HOLD", ["WAIT_ADD"], guards, some expires_at⟩, st)

/-- Tail of the TRADE branch of `propose_action`: structural stop, time
stop, support break, staged resistance scale-outs, defaulting to HOLD. -/
def tradeAfterProgress (snapshot : Snapshot) (st : TokenState) (cfg : Config)
    (guards : List (String × ℤ)) (expires_at : ℤ) : ActionProposal × TokenState :=
  let stop_buffer := cfg.stop_buffer_pct
  let struct_hit :=
    match st.probe_entry_low with
    | some pel => decide (snapshot.last_close < pel * (1 - stop_buffer))
    | none => false
  if struct_hit then (⟨"EXIT_FULL", ["STRUCT_STOP"], guards, some expires_at⟩, st)
  else
    let time_stop := cfg.time_stop_candles
    let time_hit :=
      if time_stop ≠ 0 then
        match snapshot.candle_index, st.entry_index with
        | some ci, some ei => decide (ci - ei ≥ time_stop)
        | _, _ => decide (st.time_in_trade ≥ time_stop)
      else false
    if time_hit then (⟨"EXIT_FULL", ["TIME_STOP"], guards, some expires_at⟩, st)
    else
      let support_hit :=
        match snapshot.support_level with
        | some z => decide (snapshot.last_close < z.low)
        | none => false
      if support_hit then (⟨"EXIT_FULL", ["SUPPORT_BREAK"], guards, some expires_at⟩, st)
      else
        let levels := snapshot.resistance_levels
        if levels.isEmpty then (⟨"HOLD", ["HOLD_TRADE"], guards, some expires_at⟩, st)
        else if st.scale_out_stage = 0 ∧ levels.length ≥ 1
            ∧ snapshot.last_close ≥ (levels.getD 0 ⟨0, 0, 0⟩).low then
          (⟨"SCALE_OUT_20", ["R1_TOUCH"], guards, some expires_at⟩, st)
        else if st.scale_out_stage = 1 ∧ levels.length ≥ 2
            ∧ snapshot.last_close ≥ (levels.getD 1 ⟨0, 0, 0⟩).low then
          (⟨"SCALE_OUT_20", ["R2_TOUCH"], guards, some expires_at⟩, st)
        else if st.scale_out_stage ≥ 2 ∧ levels.length ≥ 3
            ∧ snapshot.last_close ≥ (levels.getD 2 ⟨0, 0, 0⟩).low then
          (⟨"EXIT_FULL", ["R3_TOUCH"], guards, some expires_at⟩, st)
        else (⟨"HOLD", ["HOLD_TRADE"], guards, some expires_at⟩, st)

/-- Tail of the SCOUT branch of `propose_action` reached when no pending
breakout is active (or it was cleared for lack of a candle index): the
strict-breakout arming logic, the chain override, and the missing-signal
HOLD. -/
def scoutBreakoutRest (snapshot : Snapshot) (st : TokenState) (cfg : Config)
    (interval_sec : ℤ) (missing_reasons : List String)
    (guards : List (String × ℤ)) (expires_at : ℤ) : ActionProposal × TokenState :=
  if snapshot.features.breakout_strict then
    let vol_ok := scoutVolOk snapshot cfg
    if !(can_reenter snapshot.now_ts st.last_exit_ts st.last_exit_index
        st.last_exit_price snapshot.last_close cfg vol_ok st.last_exit_was_stop
        (some interval_sec) snapshot.candle_index) then
      (⟨"HOLD", ["REENTRY_LOCKOUT"], guards, some expires_at⟩, st)
    else
      match snapshot.candle_index with
      | none => (⟨"PROBE_BUY", ["BREAKOUT"], guards, some expires_at⟩, st)
      | some current_index =>
        (⟨"HOLD", ["BREAKOUT_PENDING"], guards, some expires_at⟩,
          { st with
            pending_breakout_index := some current_index
            pending_breakout_level := some snapshot.features.highest_close
            pending_breakout_expires_index := some (current_index + 3) })
  else if snapshot.features.chain_override then
    if !(can_reenter snapshot.now_ts st.last_exit_ts st.last_exit_index
        st.last_exit_price snapshot.last_close cfg false st.last_exit_was_stop
        (some interval_sec) snapshot.candle_index) then
      (⟨"HOLD", ["REENTRY_LOCKOUT"], guards, some expires_at⟩, st)
    else
      (⟨"PROBE_BUY", missing_reasons ++ ["PROVISIONAL_CHAIN_OVERRIDE"], guards,
        some expires_at⟩, st)
  else
    let mr := if missing_reasons = [] then ["NO_PRICE_EXPANSION"] else missing_reasons
    (⟨"HOLD", mr, guards, some expires_at⟩, st)

/-- The `propose_action` policy function, returning the proposal together
with the state it mutated.  In the source, `breakout_strict` is read from
the feature dict with `breakout` as fallback; the feature record always
carries both keys with equal values, so the field read suffices. -/
def propose_action (snapshot : Snapshot) (state : TokenState) (cfg : Config) :
    ActionProposal × TokenState :=
  let expires_at := snapshot.now_ts + cfg.poll_interval_sec
  let guards := [("max_slippage_bps", pyInt cfg.max_slippage_bps)]
  if state.status = "COOLDOWN" then
    (⟨"HOLD", ["COOLDOWN"], guards, some expires_at⟩, state)
  else if state.status = "SCOUT" then
    let interval_sec := infer_interval_sec snapshot.candles
    let state := update_reentry_lockout state snapshot.now_ts cfg interval_sec
      snapshot.candle_index
    let missing_reasons :=
      (if !snapshot.features.range_compressed then ["NO_RANGE_COMPRESSION"] else [])
        ++ (if !snapshot.features.price_expanded then ["NO_PRICE_EXPANSION"] else [])
    match state.pending_breakout_index with
    | none =>
      scoutBreakoutRest snapshot state cfg interval_sec missing_reasons guards expires_at
    | some _ =>
      match snapshot.candle_index with
      | none =>
        scoutBreakoutRest snapshot (clear_pending_breakout state) cfg interval_sec
          missing_reasons guards expires_at
      | some current_index =>
        let expired :=
          match state.pending_breakout_expires_index with
          | some expires => decide (current_index > expires)
          | none => false
        if expired then
          (⟨"HOLD", ["BREAKOUT_EXPIRED"], guards, some expires_at⟩,
            clear_pending_breakout state)
        else
          match state.pending_breakout_level with
          | none =>
            (⟨"HOLD", ["BREAKOUT_EXPIRED"], guards, some expires_at⟩,
              clear_pending_breakout state)
          | some level =>
            let close := snapshot.last_close
            let low := snapshot.last_low
            let confirm_close := decide (close ≥ level * (1 + cfg.confirm_min_close_above_pct))
            let confirm_retrace_ok := decide (low ≥ level * (1 - cfg.confirm_max_retrace_pct))
            if decide (close > level) && confirm_close && confirm_retrace_ok then
              (⟨"PROBE_BUY", ["BREAKOUT_CONFIRM"], guards, some expires_at⟩,
                clear_pending_breakout state)
            else
              (⟨"HOLD", ["BREAKOUT_WAIT"], guards, some expires_at⟩, state)
  else if state.status = "PROBE" then
    match progressCheck snapshot state cfg guards expires_at with
    | (some p, st) => (p, st)
    | (none, st) => probeAfterProgress snapshot st cfg guards expires_at
  else if state.status = "TRADE" then
    match progressCheck snapshot state cfg guards expires_at with
    | (some p, st) => (p, st)
    | (none, st) => tradeAfterProgress snapshot st cfg guards expires_at
  else
    (⟨"HOLD", ["DEFAULT_HOLD"], guards, some expires_at⟩, state)

/-! Risk validator, from `app/orchestrator/risk.py` and
`app/orchestrator/validator.py`. -/

/-- The `estimate_slippage_bps` function. -/
def estimate_slippage_bps (amount_usd liquidity_usd : ℚ) : ℤ :=
  if liquidity_usd ≤ 0 then 10000
  else
    let impact := amount_usd / liquidity_usd
    let bps := pyInt (impact * 10000)
    max 10 (min 5000 bps)

/-- The `_action_notional_usd` helper. -/
def actionNotionalUsd (action : String) (state : TokenState) (cfg : Config) : ℚ :=
  if action = "PROBE_BUY" then cfg.capital_usd * cfg.probe_pct
  else if action = "ADD_BUY" then cfg.capital_usd * cfg.add_pct
  else if action = "SCALE_OUT_20" then
    let scale_pct :=
      if state.scale_out_stage = 0 then cfg.tp1_scale_out_pct else cfg.tp2_scale_out_pct
    state.position_usd * scale_pct
  else if action = "EXIT_FULL" then state.position_usd
  else 0

/-- The `validate_action` function. -/
def validate_action (proposal : ActionProposal) (snapshot : Snapshot)
    (state : TokenState) (cfg : Config) : ActionProposal :=
  if proposal.action = "HOLD" then proposal
  else
    let rejected : List String := []
    let rejected := if state.status = "COOLDOWN" then rejected ++ ["COOLDOWN"] else rejected
    let liquidity := snapshot.pair.liquidity_usd
    let rejected :=
      if liquidity < cfg.min_liquidity_usd then rejected ++ ["LOW_LIQUIDITY"] else rejected
    let rejected :=
      if (proposal.action = "SCALE_OUT_20" ∨ proposal.action = "EXIT_FULL")
          ∧ state.position_usd ≤ 0 then
        rejected ++ ["NO_POSITION"]
      else rejected
    let notional := actionNotionalUsd proposal.action state cfg
    let slippage_bps := estimate_slippage_bps notional liquidity
    let rejected :=
      if (slippage_bps : ℚ) > cfg.max_slippage_bps then rejected ++ ["SLIPPAGE_TOO_HIGH"]
      else rejected
    if rejected = [] then proposal
    else ⟨"HOLD", rejected.map fun code => "REJECT_" ++ code, proposal.guards,
      proposal.expires_at⟩

/-! Entry ranker, from `app/orchestrator/runner.py`
(`_rank_entry_proposals` with `_apply_score_adjustments`). -/

/-- One element of the per-tick proposal list the runner ranks: the
proposal and the parts of its snapshot the scorer reads. -/
structure RankEntry where
  proposal : ActionProposal
  candles : List Candle
  features : Features

/-- Demotion applied to ranked-out entries: the proposal is copied with
action HOLD and RANKED_OUT appended to its reason codes. -/
def demoteRankedOut (p : ActionProposal) : ActionProposal :=
  { p with action := "HOLD", reason_codes := p.reason_codes ++ ["RANKED_OUT"] }

/-- The `_apply_score_adjustments` function (the adjustment value part;
the audit-trail list it also returns is not consumed by ranking). -/
def applyScoreAdjustments (score : ℚ) (features : Features) (cfg : Config) : ℚ :=
  let score := if features.chain_override then score + cfg.chain_override_score_bonus else score
  if !features.breakout_strict && features.provisional_candidate then
    score - cfg.weak_breakout_score_penalty
  else score

/-- In-place demotion pass over the proposal list: entries whose position
is in `demoted` get their proposal replaced by the ranked-out copy. -/
def markDemoted (demoted : List ℕ) : ℕ → List RankEntry → List RankEntry
  | _, [] => []
  | i, e :: rest =>
    (if i ∈ demoted then { e with proposal := demoteRankedOut e.proposal } else e)
      :: markDemoted demoted (i + 1) rest

/-- Descending comparison on adjusted scores used to sort candidates
(Python `list.sort(key=..., reverse=True)`, a stable sort). -/
def rankEntryLe (adj : ℕ × RankEntry → ℚ) (a b : ℕ × RankEntry) : Bool :=
  decide (adj b ≤ adj a)

/-- The PROBE_BUY entries of the tick's proposal list, paired with their
positions (the filter in `_rank_entry_proposals`). -/
def entryCandidates (proposals : List RankEntry) : List (ℕ × RankEntry) :=
  (enumFrom 0 proposals).filter fun e => e.2.proposal.action == "PROBE_BUY"

/-- Adjusted score of one indexed entry: the raw momentum total put
through `_apply_score_adjustments`. -/
def entryAdj (raw : RankEntry → ℚ) (cfg : Config) (e : ℕ × RankEntry) : ℚ :=
  applyScoreAdjustments (raw e.2) e.2.features cfg

/-- The `_rank_entry_proposals` function.  `raw` is the raw momentum
total `_momentum_score_detail(entry.snapshot.candles, lookback)["total"]`
of an entry; it is passed as a function here because its value (modelled
by `momentum_score`, which shares its formula) involves logarithms and
only its ordering matters to ranking.  Entries are identified by their
position in the tick's proposal list, standing for the object identity
through which the source mutates them in place. -/
def rank_entry_proposals (raw : RankEntry → ℚ) (cfg : Config)
    (proposals : List RankEntry) : List RankEntry :=
  let top_n := cfg.top_n_per_tick
  let min_candidates := cfg.min_candidates_before_rank
  let entries := entryCandidates proposals
  if top_n ≤ 0 ∨ (entries.length : ℤ) < max 1 min_candidates then proposals
  else
    let sorted := entries.mergeSort (rankEntryLe (entryAdj raw cfg))
    let demoted := (sorted.drop top_n.toNat).map Prod.fst
    markDemoted demoted 0 proposals

/-! Sample values used by witness instantiations. -/

/-- Sample candle. -/
def sampleCandle : Candle := ⟨0, 1, 1, 1, 1, 1⟩

/-- Sample pair with zero liquidity (below any positive minimum). -/
def samplePair : PairStats := ⟨"PAIR1", "MINT1", 1, 0, 0, 0⟩

/-- Sample snapshot over the sample pair. -/
def sampleSnapshot : Snapshot :=
  ⟨samplePair, [sampleCandle], [], [], emptyFeatures, 0, 0, none, 1, 1, 1, [], none⟩

/-- Sample state sitting in cooldown. -/
def cooldownState : TokenState :=
  { initialTokenState with status := "COOLDOWN", cooldown_left := 5 }

/-- Sample configuration. -/
def sampleConfig : Config where
  capital_usd := 1000
  probe_pct := 1 / 50
  add_pct := 3 / 100
  tp1_scale_out_pct := 1 / 5
  tp2_scale_out_pct := 3 / 10
  cooldown_candles := 5
  poll_interval_sec := 1
  lockout_candles := 10
  min_breakout_pct := 1 / 10
  candle_seconds := 60
  vol_mult_unlock := 2
  confirm_min_close_above_pct := 1 / 100
  confirm_max_retrace_pct := 1 / 20
  add_trigger_up_pct := 1 / 10
  time_stop_candles := 120
  top_n_per_tick := 1
  min_candidates_before_rank := 1
  momentum_lookback := 20
  min_move_pct := 1 / 20
  max_wait_candles := 10
  breakeven_after_progress := false
  trail_after_progress := false
  trail_lookback_lows := 1
  stop_buffer_pct := 3 / 20
  min_liquidity_usd := 10000
  max_slippage_bps := 150
  chain_override_score_bonus := 5
  weak_breakout_score_penalty := 3

/-! Properties of the regime score (claim C8). -/

/-- Rounding a nonnegative rational gives a nonnegative integer. -/
lemma pyRound_nonneg {q : ℚ} (h : 0 ≤ q) : 0 ≤ pyRound q := by
  have hf : (0 : ℤ) ≤ ⌊q⌋ := Int.floor_nonneg.mpr h
  simp only [pyRound]
  split_ifs <;> omega

/-- Rounding respects an integer upper bound. -/
lemma pyRound_le_of_le {q : ℚ} {n : ℤ} (h : q ≤ (n : ℚ)) : pyRound q ≤ n := by
  have hfn : ⌊q⌋ ≤ n := by
    have := Int.floor_le_floor h
    simpa using this
  simp only [pyRound]
  split_ifs with h1 h2 h3
  · exact hfn
  · -- the fractional part strictly exceeds one half
    have hfl : (⌊q⌋ : ℚ) ≤ q - 1 / 2 := by linarith
    have : (⌊q⌋ : ℚ) < (n : ℚ) := by linarith
    have : ⌊q⌋ < n := by exact_mod_cast this
    omega
  · exact hfn
  · -- the fractional part equals one half exactly
    have heq : q - ⌊q⌋ = 1 / 2 := le_antisymm (not_lt.mp h2) (not_lt.mp h1)
    have : (⌊q⌋ : ℚ) < (n : ℚ) := by linarith
    have : ⌊q⌋ < n := by exact_mod_cast this
    omega

/-- C8: for all finite inputs, `compute_regime_score` returns an integer
in `[0, 100]` equal to `round(clamp(50 + clamp(return_pct*2000, -30, 30)
+ clamp(volume_accel*20, -20, 20) + clamp((range_ratio-1)*20, -20, 20),
0, 100))`. -/
theorem regime_score_bounds_and_formula (return_pct volume_accel range_ratio : ℚ) :
    0 ≤ compute_regime_score return_pct volume_accel range_ratio
    ∧ compute_regime_score return_pct volume_accel range_ratio ≤ 100
    ∧ compute_regime_score return_pct volume_accel range_ratio
      = pyRound (clampQ 0 100 (50 + clampQ (-30) 30 (return_pct * 2000)
          + clampQ (-20) 20 (volume_accel * 20)
          + clampQ (-20) 20 ((range_ratio - 1) * 20))) := by
  set s : ℚ := 50 + clampQ (-30) 30 (return_pct * 2000)
      + clampQ (-20) 20 (volume_accel * 20) + clampQ (-20) 20 ((range_ratio - 1) * 20) with hs
  have h0 : (0 : ℚ) ≤ clampQ 0 100 s := le_max_left _ _
  have h100 : clampQ 0 100 s ≤ (100 : ℚ) := max_le (by norm_num) (min_le_left _ _)
  refine ⟨pyRound_nonneg h0, pyRound_le_of_le (by exact_mod_cast h100), rfl⟩

/-! Properties of the backtest metrics (claim C7). -/

/-- The running equity list ends at the initial equity plus the summed
trade pnl. -/
lemma equityTail_getLastD (e : ℚ) (ts : List Trade) :
    (equityTail e ts).getLastD e = e + (ts.map Trade.pnl_usd).sum := by
  induction ts generalizing e with
  | nil => simp [equityTail]
  | cons t ts ih =>
    simp only [equityTail, List.getLastD_cons, List.map_cons, List.sum_cons, ih]
    ring

/-- The equity curve ends at the starting capital plus the summed pnl. -/
lemma equity_curve_getLastD (sc : ℚ) (ts : List Trade) :
    (equity_curve sc ts).getLastD 0 = sc + (ts.map Trade.pnl_usd).sum := by
  rw [equity_curve, List.getLastD_cons]
  exact equityTail_getLastD sc ts

/-- C7: `compute_metrics` reports `total_return_pct` equal to
`(final_equity / starting_capital) - 1` with `final_equity` the starting
capital plus all trade pnl; `profit_factor` is infinite when winning pnl
is positive and there are no losing trades, and 0 when there are neither
winners nor losers. -/
theorem compute_metrics_return_and_profit_factor (starting_capital : ℚ)
    (trades : List Trade) (hpos : 0 < starting_capital) :
    (compute_metrics starting_capital trades).total_return_pct
      = (starting_capital + (trades.map Trade.pnl_usd).sum) / starting_capital - 1
    ∧ (0 < ((trades.filter fun t => t.pnl_usd > 0).map Trade.pnl_usd).sum
        → (∀ t ∈ trades, ¬ t.pnl_usd < 0)
        → (compute_metrics starting_capital trades).profit_factor = ⊤)
    ∧ ((∀ t ∈ trades, ¬ t.pnl_usd > 0) → (∀ t ∈ trades, ¬ t.pnl_usd < 0)
        → (compute_metrics starting_capital trades).profit_factor = 0) := by
  refine ⟨?_, ?_, ?_⟩
  · have hne : equity_curve starting_capital trades ≠ [] := by simp [equity_curve]
    simp only [compute_metrics]
    rw [if_neg hne, equity_curve_getLastD]
  · intro hwin hnoloss
    have hfilter : trades.filter (fun t => t.pnl_usd < 0) = [] := by
      simp only [List.filter_eq_nil_iff]
      intro t ht
      simpa using hnoloss t ht
    simp [compute_metrics, profit_factor, hfilter, hwin]
  · intro hnowin hnoloss
    have hfl : trades.filter (fun t => t.pnl_usd < 0) = [] := by
      simp only [List.filter_eq_nil_iff]
      intro t ht
      simpa using hnoloss t ht
    have hfw : trades.filter (fun t => t.pnl_usd > 0) = [] := by
      simp only [List.filter_eq_nil_iff]
      intro t ht
      simpa using hnowin t ht
    simp [compute_metrics, profit_factor, hfl, hfw]

/-- Witness for C7 at a concrete portfolio: one winning trade of 5 USD on
100 USD starting capital, and the empty trade list. -/
theorem compute_metrics_return_and_profit_factor_witness :
    (compute_metrics 100 [⟨5, 0⟩]).total_return_pct
      = (100 + (([⟨5, 0⟩] : List Trade).map Trade.pnl_usd).sum) / 100 - 1
    ∧ (compute_metrics 100 [⟨5, 0⟩]).profit_factor = ⊤
    ∧ (compute_metrics 100 ([] : List Trade)).profit_factor = 0 := by
  refine ⟨(compute_metrics_return_and_profit_factor 100 [⟨5, 0⟩] (by norm_num)).1,
    (compute_metrics_return_and_profit_factor 100 [⟨5, 0⟩] (by norm_num)).2.1 ?_ ?_,
    (compute_metrics_return_and_profit_factor 100 [] (by norm_num)).2.2 ?_ ?_⟩
  · norm_num [List.filter]
  · intro t ht
    simp at ht
    subst ht
    norm_num
  · simp
  · simp

/-! Behaviour of the feature extractor on short inputs (claim C9). -/

/-- Counterexample to C9 as stated: on fewer than 2 candles the feature
map is not all-zero; the ratio features `price_range_ratio` and
`range_ratio` are 1, shown here at the empty candle list. -/
theorem compute_features_short_not_all_zero :
    (compute_features [] 20 1).price_range_ratio ≠ 0 := by
  norm_num [compute_features, emptyFeatures]

/-- C9 (amended): on fewer than 2 candles `compute_features` totally
returns the fallback feature map: every numeric feature zero except the
ratio features, which are 1; every boolean false; `regime_score` 0. -/
theorem compute_features_short_input (candles : List Candle) (lookback : ℤ)
    (vol_multiplier compression_max_range_ratio : ℚ)
    (compression_lookback : Option ℤ) (expansion_min_pct : ℚ)
    (expansion_reference : String) (h : candles.length < 2) :
    compute_features candles lookback vol_multiplier compression_max_range_ratio
        compression_lookback expansion_min_pct expansion_reference
      = { highest_close := 0, lowest_close := 0, avg_volume := 0, breakout := false,
          breakout_strict := false, price_range_ratio := 1, range_compressed := false,
          expansion_pct := 0, price_expanded := false, return_pct := 0,
          volume_accel := 0, range_ratio := 1, regime_score := 0,
          chain_override := false, provisional_candidate := false } := by
  unfold compute_features
  rw [if_pos h]
  rfl

/-- Witness for the amended C9 at the empty candle list. -/
theorem compute_features_short_input_witness :
    ([] : List Candle).length < 2
    ∧ compute_features [] 20 1 (5 / 4) none (3 / 50) "highest_close"
      = { highest_close := 0, lowest_close := 0, avg_volume := 0, breakout := false,
          breakout_strict := false, price_range_ratio := 1, range_compressed := false,
          expansion_pct := 0, price_expanded := false, return_pct := 0,
          volume_accel := 0, range_ratio := 1, regime_score := 0,
          chain_override := false, provisional_candidate := false } :=
  ⟨by decide, compute_features_short_input [] 20 1 (5 / 4) none (3 / 50)
    "highest_close" (by decide)⟩

/-! Behaviour of the risk validator on HOLD proposals (claim C10). -/

/-- C10: `validate_action` returns a HOLD proposal unchanged; no
rejection check is evaluated, so a HOLD proposal never acquires
`REJECT_*` codes even in cooldown or below minimum liquidity. -/
theorem validate_action_hold_identity (proposal : ActionProposal)
    (snapshot : Snapshot) (state : TokenState) (cfg : Config)
    (h : proposal.action = "HOLD") :
    validate_action proposal snapshot state cfg = proposal := by
  simp [validate_action, h]

/-- Witness for C10: a HOLD proposal passed through the validator with a
cooldown state and a zero-liquidity pair comes back identical. -/
theorem validate_action_hold_identity_witness :
    validate_action ⟨"HOLD", ["COOLDOWN"], [], none⟩ sampleSnapshot cooldownState
        sampleConfig
      = ⟨"HOLD", ["COOLDOWN"], [], none⟩ :=
  validate_action_hold_identity ⟨"HOLD", ["COOLDOWN"], [], none⟩ sampleSnapshot
    cooldownState sampleConfig rfl

/-! Rejection behaviour of the risk validator (claim C4). -/

/-- Modelled from the spec: the rejection codes for a non-HOLD proposal,
listed in check order — cooldown, low liquidity, scale-out/exit with no
position, excessive estimated slippage.  This follows the claim's words
and is compared against `validate_action`. -/
def rejectionCodesSpec (proposal : ActionProposal) (snapshot : Snapshot)
    (state : TokenState) (cfg : Config) : List String :=
  (if state.status = "COOLDOWN" then ["COOLDOWN"] else [])
    ++ (if snapshot.pair.liquidity_usd < cfg.min_liquidity_usd then ["LOW_LIQUIDITY"] else [])
    ++ (if (proposal.action = "SCALE_OUT_20" ∨ proposal.action = "EXIT_FULL")
          ∧ state.position_usd ≤ 0 then ["NO_POSITION"] else [])
    ++ (if ((estimate_slippage_bps (actionNotionalUsd proposal.action state cfg)
          snapshot.pair.liquidity_usd : ℤ) : ℚ) > cfg.max_slippage_bps
        then ["SLIPPAGE_TOO_HIGH"] else [])

/-- C4: for a non-HOLD proposal, `validate_action` returns the proposal
unchanged when no rejection condition holds, and otherwise returns a HOLD
proposal whose reason codes are exactly the `REJECT_`-prefixed triggered
conditions in check order, discarding the input proposal's own reasons
(guards and expiry are carried over). -/
theorem validate_action_rejection_codes (proposal : ActionProposal)
    (snapshot : Snapshot) (state : TokenState) (cfg : Config)
    (h : proposal.action ≠ "HOLD") :
    (rejectionCodesSpec proposal snapshot state cfg = []
      → validate_action proposal snapshot state cfg = proposal)
    ∧ (rejectionCodesSpec proposal snapshot state cfg ≠ []
      → validate_action proposal snapshot state cfg
        = ⟨"HOLD", (rejectionCodesSpec proposal snapshot state cfg).map
            (fun code => "REJECT_" ++ code), proposal.guards, proposal.expires_at⟩) := by
  have hrej : validate_action proposal snapshot state cfg
      = (if rejectionCodesSpec proposal snapshot state cfg = [] then proposal
        else ⟨"HOLD", (rejectionCodesSpec proposal snapshot state cfg).map
          (fun code => "REJECT_" ++ code), proposal.guards, proposal.expires_at⟩) := by
    simp only [validate_action, rejectionCodesSpec, if_neg h]
    split_ifs <;> simp_all
  constructor
  · intro hnil
    rw [hrej, if_pos hnil]
  · intro hne
    rw [hrej, if_neg hne]

/-- Witness for C4: a PROBE_BUY proposal evaluated against a cooldown
state over a zero-liquidity pair is rewritten to HOLD carrying exactly
the triggered `REJECT_*` codes, with its own reasons discarded. -/
theorem validate_action_rejection_codes_witness :
    validate_action ⟨"PROBE_BUY", ["BREAKOUT_CONFIRM"], [], none⟩ sampleSnapshot
        cooldownState sampleConfig
      = ⟨"HOLD", ["REJECT_COOLDOWN", "REJECT_LOW_LIQUIDITY", "REJECT_SLIPPAGE_TOO_HIGH"],
          [], none⟩ := by
  have hcodes : rejectionCodesSpec ⟨"PROBE_BUY", ["BREAKOUT_CONFIRM"], [], none⟩
      sampleSnapshot cooldownState sampleConfig
      = ["COOLDOWN", "LOW_LIQUIDITY", "SLIPPAGE_TOO_HIGH"] := by
    norm_num [rejectionCodesSpec, sampleSnapshot, samplePair, cooldownState,
      initialTokenState, sampleConfig, estimate_slippage_bps, actionNotionalUsd]
    decide
  have h := (validate_action_rejection_codes ⟨"PROBE_BUY", ["BREAKOUT_CONFIRM"], [], none⟩
    sampleSnapshot cooldownState sampleConfig (by simp)).2
  rw [hcodes] at h
  simpa using h (by simp)

/-! Re-entry lockout after a stop exit (claim C3). -/

/-- C3: with a recorded stop exit (price and index known), positive
configured lockout and no volume override, `can_reenter` is false while
fewer than `3 * lockout_candles` bars have elapsed unless the close has
moved `min_breakout_pct` above the exit price, and true once
`3 * lockout_candles` bars have elapsed. -/
theorem can_reenter_stop_lockout (cfg : Config) (now_ts : ℤ)
    (last_exit_ts : Option ℤ) (last_exit_index now_index : ℤ)
    (last_exit_price current_close : ℚ) (interval_sec : Option ℤ)
    (hl : 0 < cfg.lockout_candles) :
    (now_index - last_exit_index < 3 * cfg.lockout_candles
      → current_close < last_exit_price * (1 + cfg.min_breakout_pct)
      → can_reenter now_ts last_exit_ts (some last_exit_index) (some last_exit_price)
          current_close cfg false true interval_sec (some now_index) = false)
    ∧ (now_index - last_exit_index < 3 * cfg.lockout_candles
      → last_exit_price * (1 + cfg.min_breakout_pct) ≤ current_close
      → can_reenter now_ts last_exit_ts (some last_exit_index) (some last_exit_price)
          current_close cfg false true interval_sec (some now_index) = true)
    ∧ (3 * cfg.lockout_candles ≤ now_index - last_exit_index
      → can_reenter now_ts last_exit_ts (some last_exit_index) (some last_exit_price)
          current_close cfg false true interval_sec (some now_index) = true) := by
  have hlc : lockoutCandles cfg true = cfg.lockout_candles * 3 := rfl
  refine ⟨?_, ?_, ?_⟩ <;> intro h1 <;> try intro h2
  · simp only [can_reenter, hlc]
    rw [if_neg (by simp)]
    rw [if_neg (by omega)]
    rw [if_pos (by omega)]
    rw [if_neg (by exact not_le.mpr h2), if_neg (by simp)]
  · simp only [can_reenter, hlc]
    rw [if_neg (by simp)]
    rw [if_neg (by omega)]
    rw [if_pos (by omega)]
    rw [if_pos h2]
  · simp only [can_reenter, hlc]
    rw [if_neg (by simp)]
    rw [if_neg (by omega)]
    rw [if_neg (by omega)]

/-- Witness for C3 at the repo's own lockout scenario: exit at index 100
and price 100 with lockout 10 tripled by the stop flag; at index 120 with
close 105 re-entry is blocked, at close 111 it is allowed, and at index
131 it is allowed regardless. -/
theorem can_reenter_stop_lockout_witness :
    can_reenter 0 none (some 100) (some 100) 105 sampleConfig false true none
        (some 120) = false
    ∧ can_reenter 0 none (some 100) (some 100) 111 sampleConfig false true none
        (some 120) = true
    ∧ can_reenter 0 none (some 100) (some 100) 101 sampleConfig false true none
        (some 131) = true :=
  ⟨(can_reenter_stop_lockout sampleConfig 0 none 100 120 100 105 none
      (by norm_num [sampleConfig])).1 (by norm_num [sampleConfig])
      (by norm_num [sampleConfig]),
    (can_reenter_stop_lockout sampleConfig 0 none 100 120 100 111 none
      (by norm_num [sampleConfig])).2.1 (by norm_num [sampleConfig])
      (by norm_num [sampleConfig]),
    (can_reenter_stop_lockout sampleConfig 0 none 100 131 100 101 none
      (by norm_num [sampleConfig])).2.2 (by norm_num [sampleConfig])⟩

/-! Flat-position invariant of the state machine (claim C1). -/

/-- The invariant: the position is zero whenever the instrument is in
SCOUT or COOLDOWN. -/
def FlatOutsideTrade (s : TokenState) : Prop :=
  s.status = "SCOUT" ∨ s.status = "COOLDOWN" → s.position_usd = 0

/-- Advancing time never changes the position. -/
lemma advance_time_position (s : TokenState) :
    (advance_time s).position_usd = s.position_usd := by
  simp only [advance_time]
  split_ifs <;> simp

/-- Advancing time either keeps the status or moves COOLDOWN to SCOUT. -/
lemma advance_time_status_cases (s : TokenState) :
    (advance_time s).status = s.status
    ∨ ((advance_time s).status = "SCOUT" ∧ s.status = "COOLDOWN") := by
  simp only [advance_time]
  split_ifs <;> simp_all

/-- The `advance_time` tick preserves the flat-position invariant. -/
lemma flat_advance_time (s : TokenState) (h : FlatOutsideTrade s) :
    FlatOutsideTrade (advance_time s) := by
  intro hst
  rw [advance_time_position]
  rcases advance_time_status_cases s with hc | ⟨_, hc⟩
  · exact h (by rwa [hc] at hst)
  · exact h (Or.inr hc)

/-- Every `apply_action` call preserves the flat-position invariant. -/
lemma flat_apply_action (s : TokenState) (action : String) (snapshot : Snapshot)
    (cfg : Config) (codes : Option (List String)) (h : FlatOutsideTrade s) :
    FlatOutsideTrade (apply_action s action snapshot cfg codes) := by
  unfold FlatOutsideTrade at *
  unfold apply_action
  split_ifs with h1 h2 h3 h4 <;> intro hst <;> simp_all [clear_pending_breakout]

/-- Each engine step preserves the flat-position invariant. -/
lemma flat_stepState (s : TokenState) (step : EngineStep) (h : FlatOutsideTrade s) :
    FlatOutsideTrade (stepState s step) := by
  cases step with
  | advance => exact flat_advance_time s h
  | act action snapshot cfg codes => exact flat_apply_action s action snapshot cfg codes h

/-- The invariant holds along any run from an invariant state. -/
lemma flat_runSteps (steps : List EngineStep) :
    ∀ s : TokenState, FlatOutsideTrade s → FlatOutsideTrade (runSteps s steps) := by
  induction steps with
  | nil => intro s h; exact h
  | cons step rest ih =>
    intro s h
    exact ih (stepState s step) (flat_stepState s step h)

/-- C1: starting from the initial token state, any sequence of
`advance_time` and `apply_action` calls (with arbitrary snapshots,
configs and actions, known or unknown) keeps `position_usd = 0` whenever
the status is SCOUT or COOLDOWN. -/
theorem position_flat_in_scout_and_cooldown (steps : List EngineStep)
    (h : (runSteps initialTokenState steps).status = "SCOUT"
      ∨ (runSteps initialTokenState steps).status = "COOLDOWN") :
    (runSteps initialTokenState steps).position_usd = 0 :=
  flat_runSteps steps initialTokenState (fun _ => rfl) h

/-- Witness for C1: a probe entry followed by a full exit lands in
COOLDOWN with a zero position. -/
theorem position_flat_in_scout_and_cooldown_witness :
    (runSteps initialTokenState
        [EngineStep.act "PROBE_BUY" sampleSnapshot sampleConfig none,
          EngineStep.advance,
          EngineStep.act "EXIT_FULL" sampleSnapshot sampleConfig none]).status
      = "COOLDOWN"
    ∧ (runSteps initialTokenState
        [EngineStep.act "PROBE_BUY" sampleSnapshot sampleConfig none,
          EngineStep.advance,
          EngineStep.act "EXIT_FULL" sampleSnapshot sampleConfig none]).position_usd
      = 0 := by
  have hst : (runSteps initialTokenState
      [EngineStep.act "PROBE_BUY" sampleSnapshot sampleConfig none,
        EngineStep.advance,
        EngineStep.act "EXIT_FULL" sampleSnapshot sampleConfig none]).status
      = "COOLDOWN" := by
    simp [runSteps, stepState, apply_action, advance_time, clear_pending_breakout,
      initialTokenState, sampleSnapshot, sampleConfig]
  exact ⟨hst, position_flat_in_scout_and_cooldown _ (Or.inr hst)⟩

/-! Pending-breakout confirmation protocol (claim C2). -/

/-- The lockout refresh only touches the stop flag: status preserved. -/
lemma url_status (s : TokenState) (nt : ℤ) (cfg : Config) (isec : ℤ) (ni : Option ℤ) :
    (update_reentry_lockout s nt cfg isec ni).status = s.status := by
  unfold update_reentry_lockout
  split_ifs <;> rfl

/-- The lockout refresh preserves the pending-breakout index. -/
lemma url_pbi (s : TokenState) (nt : ℤ) (cfg : Config) (isec : ℤ) (ni : Option ℤ) :
    (update_reentry_lockout s nt cfg isec ni).pending_breakout_index
      = s.pending_breakout_index := by
  unfold update_reentry_lockout
  split_ifs <;> rfl

/-- The lockout refresh preserves the pending-breakout level. -/
lemma url_pbl (s : TokenState) (nt : ℤ) (cfg : Config) (isec : ℤ) (ni : Option ℤ) :
    (update_reentry_lockout s nt cfg isec ni).pending_breakout_level
      = s.pending_breakout_level := by
  unfold update_reentry_lockout
  split_ifs <;> rfl

/-- The lockout refresh preserves the pending-breakout expiry. -/
lemma url_pbe (s : TokenState) (nt : ℤ) (cfg : Config) (isec : ℤ) (ni : Option ℤ) :
    (update_reentry_lockout s nt cfg isec ni).pending_breakout_expires_index
      = s.pending_breakout_expires_index := by
  unfold update_reentry_lockout
  split_ifs <;> rfl

/-- The lockout refresh preserves the last exit timestamp. -/
lemma url_lts (s : TokenState) (nt : ℤ) (cfg : Config) (isec : ℤ) (ni : Option ℤ) :
    (update_reentry_lockout s nt cfg isec ni).last_exit_ts = s.last_exit_ts := by
  unfold update_reentry_lockout
  split_ifs <;> rfl

/-- The lockout refresh preserves the last exit index. -/
lemma url_lei (s : TokenState) (nt : ℤ) (cfg : Config) (isec : ℤ) (ni : Option ℤ) :
    (update_reentry_lockout s nt cfg isec ni).last_exit_index = s.last_exit_index := by
  unfold update_reentry_lockout
  split_ifs <;> rfl

/-- The lockout refresh preserves the last exit price. -/
lemma url_lep (s : TokenState) (nt : ℤ) (cfg : Config) (isec : ℤ) (ni : Option ℤ) :
    (update_reentry_lockout s nt cfg isec ni).last_exit_price = s.last_exit_price := by
  unfold update_reentry_lockout
  split_ifs <;> rfl

/-- A SCOUT state with no pending breakout, a strict breakout at candle
index `i` and re-entry permitted arms the pending-breakout fields and
holds. -/
lemma propose_action_scout_arms (snapI : Snapshot) (s0 : TokenState) (cfg : Config)
    (i : ℤ) (hstatus : s0.status = "SCOUT")
    (hpending : s0.pending_breakout_index = none)
    (hidx : snapI.candle_index = some i)
    (hstrict : snapI.features.breakout_strict = true)
    (hre : can_reenter snapI.now_ts s0.last_exit_ts s0.last_exit_index
        s0.last_exit_price snapI.last_close cfg (scoutVolOk snapI cfg)
        (update_reentry_lockout s0 snapI.now_ts cfg (infer_interval_sec snapI.candles)
          snapI.candle_index).last_exit_was_stop
        (some (infer_interval_sec snapI.candles)) snapI.candle_index = true) :
    propose_action snapI s0 cfg
      = (⟨"HOLD", ["BREAKOUT_PENDING"],
          [("max_slippage_bps", pyInt cfg.max_slippage_bps)],
          some (snapI.now_ts + cfg.poll_interval_sec)⟩,
        { update_reentry_lockout s0 snapI.now_ts cfg (infer_interval_sec snapI.candles)
            snapI.candle_index with
          pending_breakout_index := some i
          pending_breakout_level := some snapI.features.highest_close
          pending_breakout_expires_index := some (i + 3) }) := by
  simp only [propose_action]
  rw [if_neg (by rw [hstatus]; simp), if_pos hstatus]
  rw [url_pbi, hpending]
  simp only [scoutBreakoutRest, hstrict, if_pos]
  rw [url_lts, url_lei, url_lep, hre]
  simp only [Bool.not_true, Bool.false_eq_true, if_false]
  rw [hidx]

/-- From an armed SCOUT state, the next policy call at index `j` expires,
confirms, or waits, exactly as the source's pending branch decides. -/
lemma propose_action_pending_step (snapJ : Snapshot) (s : TokenState) (cfg : Config)
    (i j : ℤ) (lvl : ℚ) (hstatus : s.status = "SCOUT")
    (hpi : s.pending_breakout_index = some i)
    (hpl : s.pending_breakout_level = some lvl)
    (hpe : s.pending_breakout_expires_index = some (i + 3))
    (hjdx : snapJ.candle_index = some j) :
    (i + 3 < j
      → propose_action snapJ s cfg
        = (⟨"HOLD", ["BREAKOUT_EXPIRED"],
            [("max_slippage_bps", pyInt cfg.max_slippage_bps)],
            some (snapJ.now_ts + cfg.poll_interval_sec)⟩,
          clear_pending_breakout (update_reentry_lockout s snapJ.now_ts cfg
            (infer_interval_sec snapJ.candles) snapJ.candle_index)))
    ∧ (j ≤ i + 3
      → lvl < snapJ.last_close
      → lvl * (1 + cfg.confirm_min_close_above_pct) ≤ snapJ.last_close
      → lvl * (1 - cfg.confirm_max_retrace_pct) ≤ snapJ.last_low
      → propose_action snapJ s cfg
        = (⟨"PROBE_BUY", ["BREAKOUT_CONFIRM"],
            [("max_slippage_bps", pyInt cfg.max_slippage_bps)],
            some (snapJ.now_ts + cfg.poll_interval_sec)⟩,
          clear_pending_breakout (update_reentry_lockout s snapJ.now_ts cfg
            (infer_interval_sec snapJ.candles) snapJ.candle_index)))
    ∧ (j ≤ i + 3
      → ¬(lvl < snapJ.last_close
          ∧ lvl * (1 + cfg.confirm_min_close_above_pct) ≤ snapJ.last_close
          ∧ lvl * (1 - cfg.confirm_max_retrace_pct) ≤ snapJ.last_low)
      → propose_action snapJ s cfg
        = (⟨"HOLD", ["BREAKOUT_WAIT"],
            [("max_slippage_bps", pyInt cfg.max_slippage_bps)],
            some (snapJ.now_ts + cfg.poll_interval_sec)⟩,
          update_reentry_lockout s snapJ.now_ts cfg
            (infer_interval_sec snapJ.candles) snapJ.candle_index)) := by
  refine ⟨?_, ?_, ?_⟩
  · intro hexp
    simp only [propose_action]
    rw [if_neg (by rw [hstatus]; simp), if_pos hstatus]
    rw [url_pbi, hpi]
    simp only []
    rw [hjdx]
    simp only [url_pbe, hpe]
    rw [if_pos (by simpa using hexp)]
  · intro hle hgt hclose hretrace
    simp only [propose_action]
    rw [if_neg (by rw [hstatus]; simp), if_pos hstatus]
    rw [url_pbi, hpi]
    simp only []
    rw [hjdx]
    simp only [url_pbe, hpe]
    rw [if_neg (by simpa using not_lt.mpr hle)]
    rw [url_pbl, hpl]
    simp only []
    have hcond : (decide (snapJ.last_close > lvl)
        && decide (snapJ.last_close ≥ lvl * (1 + cfg.confirm_min_close_above_pct))
        && decide (snapJ.last_low ≥ lvl * (1 - cfg.confirm_max_retrace_pct))) = true := by
      simp only [Bool.and_eq_true, decide_eq_true_eq]
      exact ⟨⟨hgt, hclose⟩, hretrace⟩
    rw [if_pos hcond]
  · intro hle hnot
    simp only [propose_action]
    rw [if_neg (by rw [hstatus]; simp), if_pos hstatus]
    rw [url_pbi, hpi]
    simp only []
    rw [hjdx]
    simp only [url_pbe, hpe]
    rw [if_neg (by simpa using not_lt.mpr hle)]
    rw [url_pbl, hpl]
    simp only []
    have hncond : ¬((decide (snapJ.last_close > lvl)
        && decide (snapJ.last_close ≥ lvl * (1 + cfg.confirm_min_close_above_pct))
        && decide (snapJ.last_low ≥ lvl * (1 - cfg.confirm_max_retrace_pct))) = true) := by
      simp only [Bool.and_eq_true, decide_eq_true_eq]
      intro hcontra
      exact hnot ⟨hcontra.1.1, hcontra.1.2, hcontra.2⟩
    rw [if_neg hncond]

/-- C2: in SCOUT with the pending fields unset and re-entry permitted, a
strict breakout at candle index `i` arms `pending_breakout_index = i`,
`pending_breakout_level = highest_close`, `expires_index = i + 3` and
holds; a later call at index `j` while pending expires (clearing the
fields, HOLD/"BREAKOUT_EXPIRED") when `j > i + 3`, confirms (clearing the
fields, PROBE_BUY/"BREAKOUT_CONFIRM") when the close beats the level and
both confirm thresholds hold, and otherwise waits
(HOLD/"BREAKOUT_WAIT"). -/
theorem pending_breakout_protocol (snapI snapJ : Snapshot) (s0 : TokenState)
    (cfg : Config) (i j : ℤ)
    (hstatus : s0.status = "SCOUT")
    (hpending : s0.pending_breakout_index = none)
    (hidx : snapI.candle_index = some i)
    (hstrict : snapI.features.breakout_strict = true)
    (hre : can_reenter snapI.now_ts s0.last_exit_ts s0.last_exit_index
        s0.last_exit_price snapI.last_close cfg (scoutVolOk snapI cfg)
        (update_reentry_lockout s0 snapI.now_ts cfg (infer_interval_sec snapI.candles)
          snapI.candle_index).last_exit_was_stop
        (some (infer_interval_sec snapI.candles)) snapI.candle_index = true)
    (hjdx : snapJ.candle_index = some j) :
    (propose_action snapI s0 cfg).1.action = "HOLD"
    ∧ (propose_action snapI s0 cfg).2.pending_breakout_index = some i
    ∧ (propose_action snapI s0 cfg).2.pending_breakout_level
      = some snapI.features.highest_close
    ∧ (propose_action snapI s0 cfg).2.pending_breakout_expires_index = some (i + 3)
    ∧ (i + 3 < j
      → (propose_action snapJ (propose_action snapI s0 cfg).2 cfg).1.action = "HOLD"
        ∧ (propose_action snapJ (propose_action snapI s0 cfg).2 cfg).1.reason_codes
          = ["BREAKOUT_EXPIRED"]
        ∧ (propose_action snapJ (propose_action snapI s0 cfg).2 cfg).2.pending_breakout_index
          = none
        ∧ (propose_action snapJ (propose_action snapI s0 cfg).2 cfg).2.pending_breakout_level
          = none
        ∧ (propose_action snapJ (propose_action snapI s0 cfg).2 cfg).2.pending_breakout_expires_index
          = none)
    ∧ (j ≤ i + 3
      → snapI.features.highest_close < snapJ.last_close
      → snapI.features.highest_close * (1 + cfg.confirm_min_close_above_pct)
          ≤ snapJ.last_close
      → snapI.features.highest_close * (1 - cfg.confirm_max_retrace_pct)
          ≤ snapJ.last_low
      → (propose_action snapJ (propose_action snapI s0 cfg).2 cfg).1.action = "PROBE_BUY"
        ∧ (propose_action snapJ (propose_action snapI s0 cfg).2 cfg).1.reason_codes
          = ["BREAKOUT_CONFIRM"]
        ∧ (propose_action snapJ (propose_action snapI s0 cfg).2 cfg).2.pending_breakout_index
          = none
        ∧ (propose_action snapJ (propose_action snapI s0 cfg).2 cfg).2.pending_breakout_level
          = none
        ∧ (propose_action snapJ (propose_action snapI s0 cfg).2 cfg).2.pending_breakout_expires_index
          = none)
    ∧ (j ≤ i + 3
      → ¬(snapI.features.highest_close < snapJ.last_close
          ∧ snapI.features.highest_close * (1 + cfg.confirm_min_close_above_pct)
            ≤ snapJ.last_close
          ∧ snapI.features.highest_close * (1 - cfg.confirm_max_retrace_pct)
            ≤ snapJ.last_low)
      → (propose_action snapJ (propose_action snapI s0 cfg).2 cfg).1.action = "HOLD"
        ∧ (propose_action snapJ (propose_action snapI s0 cfg).2 cfg).1.reason_codes
          = ["BREAKOUT_WAIT"]) := by
  have harm := propose_action_scout_arms snapI s0 cfg i hstatus hpending hidx hstrict hre
  have hs1status : (propose_action snapI s0 cfg).2.status = "SCOUT" := by
    rw [harm]
    show (update_reentry_lockout s0 snapI.now_ts cfg (infer_interval_sec snapI.candles)
      snapI.candle_index).status = "SCOUT"
    rw [url_status, hstatus]
  have hpi1 : (propose_action snapI s0 cfg).2.pending_breakout_index = some i := by
    rw [harm]
  have hpl1 : (propose_action snapI s0 cfg).2.pending_breakout_level
      = some snapI.features.highest_close := by
    rw [harm]
  have hpe1 : (propose_action snapI s0 cfg).2.pending_breakout_expires_index
      = some (i + 3) := by
    rw [harm]
  have hstep := propose_action_pending_step snapJ (propose_action snapI s0 cfg).2 cfg
    i j snapI.features.highest_close hs1status hpi1 hpl1 hpe1 hjdx
  refine ⟨by rw [harm], hpi1, hpl1, hpe1, ?_, ?_, ?_⟩
  · intro hexp
    rw [hstep.1 hexp]
    exact ⟨rfl, rfl, rfl, rfl, rfl⟩
  · intro hle hgt hclose hretrace
    rw [hstep.2.1 hle hgt hclose hretrace]
    exact ⟨rfl, rfl, rfl, rfl, rfl⟩
  · intro hle hnot
    rw [hstep.2.2 hle hnot]
    exact ⟨rfl, rfl⟩

/-- Pair with ample liquidity, for the pending-breakout witness. -/
def pairLiquid : PairStats := ⟨"PAIR1", "TOKEN1", 6 / 5, 100000, 1000, 10⟩

/-- Feature map with a strict breakout over reference high 1. -/
def breakoutFeatures : Features :=
  { emptyFeatures with
    highest_close := 1
    avg_volume := 1000
    breakout := true
    breakout_strict := true }

/-- Breakout bar at index 10 (close 1.2, low 1.1, high 1.25). -/
def snapArm : Snapshot :=
  ⟨pairLiquid, [⟨1700000600, 6 / 5, 5 / 4, 11 / 10, 6 / 5, 1000⟩], [], [],
    breakoutFeatures, 50, 1700000600, some 10, 6 / 5, 11 / 10, 5 / 4, [], none⟩

/-- Confirmation bar at index 11 (close 1.08, low 0.97). -/
def snapConfirm : Snapshot :=
  ⟨pairLiquid, [⟨1700000660, 27 / 25, 11 / 10, 97 / 100, 27 / 25, 1000⟩], [], [],
    emptyFeatures, 50, 1700000660, some 11, 27 / 25, 97 / 100, 11 / 10, [], none⟩

/-- Witness for C2: the breakout bar at index 10 arms the pending fields
and holds; the next bar, closing 8 percent above the level with a shallow
retrace, confirms with PROBE_BUY. -/
theorem pending_breakout_protocol_witness :
    (propose_action snapArm initialTokenState sampleConfig).1.action = "HOLD"
    ∧ (propose_action snapArm initialTokenState sampleConfig).2.pending_breakout_index
      = some 10
    ∧ (propose_action snapArm initialTokenState sampleConfig).2.pending_breakout_expires_index
      = some 13
    ∧ (propose_action snapConfirm
        (propose_action snapArm initialTokenState sampleConfig).2 sampleConfig).1.action
      = "PROBE_BUY"
    ∧ (propose_action snapConfirm
        (propose_action snapArm initialTokenState sampleConfig).2 sampleConfig).1.reason_codes
      = ["BREAKOUT_CONFIRM"] := by
  have h := pending_breakout_protocol snapArm snapConfirm initialTokenState sampleConfig
    10 11 rfl rfl rfl rfl rfl rfl
  have hconf := h.2.2.2.2.2.1 (by norm_num)
    (by norm_num [snapArm, snapConfirm, breakoutFeatures, emptyFeatures])
    (by norm_num [snapArm, snapConfirm, breakoutFeatures, emptyFeatures, sampleConfig])
    (by norm_num [snapArm, snapConfirm, breakoutFeatures, emptyFeatures, sampleConfig])
  refine ⟨h.1, h.2.1, ?_, hconf.1, hconf.2.1⟩
  rw [h.2.2.2.1]
  norm_num

/-! Momentum score (claim C6).  The source divides the final bar of the
PRECEDING window's volume (`vols[-1]` with `vols = window[:-1]`) by the
window median, where the specification says the LATEST bar's volume. -/

/-- Flat bar with volume 1 (relative range 1). -/
def cBreakA : Candle := ⟨0, 1, 2, 1, 1, 1⟩

/-- Flat bar with volume 2 (relative range 1). -/
def cBreakB : Candle := ⟨60, 1, 2, 1, 1, 2⟩

/-- Counterexample to C6 as stated: with two flat candles whose volumes
differ, `momentum_score` (which reads the second-to-last bar's volume)
disagrees with the spec's formula (which reads the latest bar's
volume). -/
theorem momentum_score_ne_spec_formula :
    momentum_score [cBreakA, cBreakB] 1
      ≠ momentumScoreSpecFormula [cBreakA, cBreakB] 1 := by
  have hw : pySliceFrom [cBreakA, cBreakB] (-(1 + 1)) = [cBreakA, cBreakB] := by
    norm_num [pySliceFrom, pyIdx]
  have h1 : ([cBreakA, cBreakB] : List Candle).dropLast = [cBreakA] := rfl
  have h2 : ([cBreakA] : List Candle).map Candle.v = [1] := rfl
  have h3 : relRanges [cBreakA] = [1] := by
    norm_num [relRanges, cBreakA, List.filterMap_cons]
  have h4 : medianQ [(1 : ℚ)] = 1 := by norm_num [medianQ]
  have hL : momentum_score [cBreakA, cBreakB] 1 = 0 := by
    simp only [momentum_score]
    rw [if_neg (by norm_num)]
    rw [hw, h1, h2, h3, h4]
    norm_num [cBreakA, cBreakB, Real.log_one]
  have hR : momentumScoreSpecFormula [cBreakA, cBreakB] 1 = 10 * Real.log 2 := by
    simp only [momentumScoreSpecFormula]
    rw [if_neg (by norm_num)]
    rw [hw, h1, h2, h3, h4]
    norm_num [cBreakA, cBreakB, Real.log_one]
  rw [hL, hR]
  have hlog : 0 < Real.log 2 := Real.log_pos (by norm_num)
  intro hcontra
  nlinarith [hlog]

/-- C6 (amended): with enough candles, a positive reference close and
positive window medians, `momentum_score` equals
`100*return + 10*log1p(max(0, volume_mult-1)) + 5*log1p(max(0,
range_mult-1))`, where `volume_mult` divides the PRECEDING window's final
bar volume (not the latest bar's) by the window's median volume, and
`range_mult` divides the latest bar's relative range by the window's
median relative range; with insufficient data or a non-positive reference
close it returns 0. -/
theorem momentum_score_closed_form (candles : List Candle) (lookback : ℤ)
    (hlb : 0 < lookback)
    (hlen : lookback + 1 ≤ (candles.length : ℤ))
    (hthen : 0 < (((pySliceFrom candles (-(lookback + 1))).head?.map Candle.c).getD 0 : ℚ))
    (hvne : (pySliceFrom candles (-(lookback + 1))).dropLast.map Candle.v ≠ [])
    (hvol : 0 < medianQ ((pySliceFrom candles (-(lookback + 1))).dropLast.map Candle.v))
    (hrne : relRanges (pySliceFrom candles (-(lookback + 1))).dropLast ≠ [])
    (hrng : 0 < medianQ (relRanges (pySliceFrom candles (-(lookback + 1))).dropLast)) :
    momentum_score candles lookback
      = 100 * (((((pySliceFrom candles (-(lookback + 1))).getLast?.map Candle.c).getD 0
            / (((pySliceFrom candles (-(lookback + 1))).head?.map Candle.c).getD 0) - 1 : ℚ)) : ℝ)
        + 10 * Real.log (1 + (max 0
            ((((pySliceFrom candles (-(lookback + 1))).dropLast.map Candle.v).getLastD 0
              / medianQ ((pySliceFrom candles (-(lookback + 1))).dropLast.map Candle.v)) - 1) : ℚ))
        + 5 * Real.log (1 + (max 0
            (((((pySliceFrom candles (-(lookback + 1))).getLast?.map Candle.h).getD 0
                - (((pySliceFrom candles (-(lookback + 1))).getLast?.map Candle.l).getD 0))
              / max ((((pySliceFrom candles (-(lookback + 1))).getLast?.map Candle.c).getD 0 : ℚ))
                (1 / 1000000000)
              / medianQ (relRanges (pySliceFrom candles (-(lookback + 1))).dropLast)) - 1) : ℚ))
    ∧ (∀ (cs : List Candle) (lb : ℤ), (cs.length : ℤ) < lb + 1 ∨ lb ≤ 0
      → momentum_score cs lb = 0)
    ∧ (∀ (cs : List Candle) (lb : ℤ),
      (((pySliceFrom cs (-(lb + 1))).head?.map Candle.c).getD 0 : ℚ) ≤ 0
      → momentum_score cs lb = 0) := by
  refine ⟨?_, ?_, ?_⟩
  · simp only [momentum_score]
    rw [if_neg (by push_neg; exact ⟨hlen, hlb⟩)]
    rw [if_neg (not_le.mpr hthen)]
    rw [if_neg hvne, if_neg hrne]
    rw [if_pos hvol, if_pos hrng, if_pos hvol, if_pos hrng]
  · intro cs lb hshort
    simp only [momentum_score]
    rw [if_pos (by tauto)]
  · intro cs lb hnp
    simp only [momentum_score]
    by_cases hshort : (cs.length : ℤ) < lb + 1 ∨ lb ≤ 0
    · rw [if_pos hshort]
    · rw [if_neg hshort, if_pos hnp]

/-- Witness for the amended C6 at the two flat candles, where every
hypothesis is concrete and the closed form evaluates. -/
theorem momentum_score_closed_form_witness :
    momentum_score [cBreakA, cBreakB] 1
      = 100 * (((((pySliceFrom [cBreakA, cBreakB] (-(1 + 1))).getLast?.map Candle.c).getD 0
            / (((pySliceFrom [cBreakA, cBreakB] (-(1 + 1))).head?.map Candle.c).getD 0) - 1 : ℚ)) : ℝ)
        + 10 * Real.log (1 + (max 0
            ((((pySliceFrom [cBreakA, cBreakB] (-(1 + 1))).dropLast.map Candle.v).getLastD 0
              / medianQ ((pySliceFrom [cBreakA, cBreakB] (-(1 + 1))).dropLast.map Candle.v)) - 1) : ℚ))
        + 5 * Real.log (1 + (max 0
            (((((pySliceFrom [cBreakA, cBreakB] (-(1 + 1))).getLast?.map Candle.h).getD 0
                - (((pySliceFrom [cBreakA, cBreakB] (-(1 + 1))).getLast?.map Candle.l).getD 0))
              / max ((((pySliceFrom [cBreakA, cBreakB] (-(1 + 1))).getLast?.map Candle.c).getD 0 : ℚ))
                (1 / 1000000000)
              / medianQ (relRanges (pySliceFrom [cBreakA, cBreakB] (-(1 + 1))).dropLast)) - 1) : ℚ)) := by
  have hw : pySliceFrom [cBreakA, cBreakB] (-(1 + 1)) = [cBreakA, cBreakB] := by
    norm_num [pySliceFrom, pyIdx]
  have h1 : ([cBreakA, cBreakB] : List Candle).dropLast = [cBreakA] := rfl
  have h2 : ([cBreakA] : List Candle).map Candle.v = [1] := rfl
  have h3 : relRanges [cBreakA] = [1] := by
    norm_num [relRanges, cBreakA, List.filterMap_cons]
  have h4 : medianQ [(1 : ℚ)] = 1 := by norm_num [medianQ]
  exact (momentum_score_closed_form [cBreakA, cBreakB] 1 (by norm_num) (by norm_num)
    (by rw [hw]; norm_num [cBreakA])
    (by rw [hw, h1, h2]; simp)
    (by rw [hw, h1, h2, h4]; norm_num)
    (by rw [hw, h1, h3]; simp)
    (by rw [hw, h1, h3, h4]; norm_num)).1

/-! Entry ranking keeps the top N candidates (claim C5). -/

/-- Positional lookup into an enumeration. -/
lemma enumFrom_getElem? {α : Type} :
    ∀ (l : List α) (i k : ℕ), (enumFrom i l)[k]? = l[k]?.map fun a => (i + k, a) := by
  intro l
  induction l with
  | nil => intro i k; simp [enumFrom]
  | cons x xs ih =>
    intro i k
    cases k with
    | zero => simp [enumFrom]
    | succ k =>
      simp only [enumFrom, List.getElem?_cons_succ]
      rw [ih (i + 1) k]
      cases xs[k]? <;> simp [Nat.add_assoc, Nat.add_comm 1 k]

/-- A member of an enumeration from zero records its own position. -/
lemma mem_enumFrom_zero {α : Type} {l : List α} {p : ℕ × α}
    (h : p ∈ enumFrom 0 l) : l[p.1]? = some p.2 := by
  rcases List.mem_iff_getElem?.mp h with ⟨k, hk⟩
  rw [enumFrom_getElem? l 0 k] at hk
  rcases hval : l[k]? with _ | a <;> rw [hval] at hk <;> simp at hk
  simpa [← hk] using hval

/-- A positional lookup yields a member of the enumeration from zero. -/
lemma enumFrom_zero_mem {α : Type} {l : List α} {k : ℕ} {a : α}
    (h : l[k]? = some a) : (k, a) ∈ enumFrom 0 l := by
  apply List.mem_iff_getElem?.mpr
  refine ⟨k, ?_⟩
  rw [enumFrom_getElem? l 0 k, h]
  simp

/-- The positions of an enumeration form a contiguous range. -/
lemma enumFrom_map_fst {α : Type} :
    ∀ (l : List α) (i : ℕ), (enumFrom i l).map Prod.fst = List.range' i l.length := by
  intro l
  induction l with
  | nil => intro i; simp [enumFrom]
  | cons x xs ih => intro i; simp [enumFrom, ih, List.range'_succ]

/-- Positional description of the demotion pass. -/
lemma markDemoted_getElem? (dem : List ℕ) :
    ∀ (l : List RankEntry) (i k : ℕ),
      (markDemoted dem i l)[k]? = l[k]?.map fun e =>
        if (i + k) ∈ dem then { e with proposal := demoteRankedOut e.proposal } else e := by
  intro l
  induction l with
  | nil => intro i k; simp [markDemoted]
  | cons x xs ih =>
    intro i k
    cases k with
    | zero => simp [markDemoted]
    | succ k =>
      simp only [markDemoted, List.getElem?_cons_succ]
      rw [ih (i + 1) k]
      cases xs[k]? <;> simp [Nat.add_assoc, Nat.add_comm 1 k]

/-- Counting the PROBE_BUY proposals that survive the demotion pass. -/
lemma markDemoted_countP (dem : List ℕ) :
    ∀ (l : List RankEntry) (i : ℕ),
      ((markDemoted dem i l).countP fun e => e.proposal.action == "PROBE_BUY")
        = ((enumFrom i l).countP fun p =>
            !(dem.contains p.1) && (p.2.proposal.action == "PROBE_BUY")) := by
  intro l
  induction l with
  | nil => intro i; simp [markDemoted, enumFrom]
  | cons x xs ih =>
    intro i
    simp only [markDemoted, enumFrom, List.countP_cons]
    rw [ih (i + 1)]
    by_cases hmem : i ∈ dem
    · simp [hmem, demoteRankedOut]
    · simp [hmem]

/-- Core description of `_rank_entry_proposals` past its guard: with
`dem` the positions dropped from a permutation of the candidate list,
exactly `n` PROBE_BUY proposals survive, non-candidates are untouched,
and every entry is either untouched or demoted. -/
lemma markDemoted_from_sorted (ps : List RankEntry) (sorted : List (ℕ × RankEntry))
    (n : ℕ) (dem : List ℕ) (hdem : dem = (sorted.drop n).map Prod.fst)
    (hperm : sorted.Perm (entryCandidates ps)) (hn : n ≤ sorted.length) :
    ((markDemoted dem 0 ps).countP fun e => e.proposal.action == "PROBE_BUY") = n
    ∧ (∀ (k : ℕ) (e : RankEntry), ps[k]? = some e
      → (e.proposal.action == "PROBE_BUY") = false
      → (markDemoted dem 0 ps)[k]? = some e)
    ∧ (∀ (k : ℕ) (e : RankEntry), ps[k]? = some e
      → (markDemoted dem 0 ps)[k]? = some e
        ∨ (markDemoted dem 0 ps)[k]?
          = some { e with proposal := demoteRankedOut e.proposal }) := by
  have hmem_sorted : ∀ p ∈ sorted,
      ps[p.1]? = some p.2 ∧ (p.2.proposal.action == "PROBE_BUY") = true := by
    intro p hp
    have hp2 := (hperm.mem_iff).mp hp
    rw [entryCandidates, List.mem_filter] at hp2
    exact ⟨mem_enumFrom_zero hp2.1, hp2.2⟩
  have hnodup : (sorted.map Prod.fst).Nodup := by
    have h1 : ((enumFrom 0 ps).map Prod.fst).Nodup := by
      rw [enumFrom_map_fst]
      exact List.nodup_range' 0 ps.length
    have h2 : (entryCandidates ps).Sublist (enumFrom 0 ps) := List.filter_sublist _
    have h3 : ((entryCandidates ps).map Prod.fst).Nodup :=
      List.Nodup.sublist (h2.map Prod.fst) h1
    exact ((hperm.map Prod.fst).nodup_iff).mpr h3
  have hkept_not_dem : ∀ p ∈ sorted.take n, p.1 ∉ dem := by
    intro p hp hmem
    have hsplit : (sorted.map Prod.fst).Nodup := hnodup
    rw [← List.take_append_drop n sorted, List.map_append, List.nodup_append] at hsplit
    rw [hdem] at hmem
    exact hsplit.2.2 (List.mem_map_of_mem Prod.fst hp) hmem
  have hdem_char : ∀ j ∈ dem, ∃ e, ps[j]? = some e
      ∧ (e.proposal.action == "PROBE_BUY") = true ∧ (j, e) ∈ sorted.drop n := by
    intro j hj
    rw [hdem] at hj
    obtain ⟨p, hp, hpj⟩ := List.mem_map.mp hj
    have h1 := hmem_sorted p (List.mem_of_mem_drop hp)
    refine ⟨p.2, ?_, ?_, ?_⟩
    · rw [← hpj]; exact h1.1
    · exact h1.2
    · rw [← hpj]; exact hp
  refine ⟨?_, ?_, ?_⟩
  · rw [markDemoted_countP dem ps 0, List.countP_eq_length_filter, ← List.filter_filter]
    have hstep : (((enumFrom 0 ps).filter fun p => p.2.proposal.action == "PROBE_BUY").filter
        fun p => !(dem.contains p.1)).length
        = ((entryCandidates ps).filter fun p => !(dem.contains p.1)).length := rfl
    rw [hstep, ((hperm.filter fun p => !(dem.contains p.1)).length_eq).symm]
    have htake : ((sorted.take n).filter fun p => !(dem.contains p.1)) = sorted.take n :=
      List.filter_eq_self.mpr fun p hp => by simpa using hkept_not_dem p hp
    have hdrop : ((sorted.drop n).filter fun p => !(dem.contains p.1)) = [] :=
      List.filter_eq_nil_iff.mpr fun p hp => by
        have hmem : p.1 ∈ dem := by
          rw [hdem]
          exact List.mem_map_of_mem Prod.fst hp
        simpa using hmem
    calc (sorted.filter fun p => !(dem.contains p.1)).length
        = ((sorted.take n ++ sorted.drop n).filter fun p => !(dem.contains p.1)).length := by
          rw [List.take_append_drop]
      _ = n := by
          rw [List.filter_append, htake, hdrop, List.length_append, List.length_take]
          simp [Nat.min_eq_left hn]
  · intro k e hk hne
    rw [markDemoted_getElem? dem ps 0 k, hk]
    simp only [Option.map_some']
    have hkdem : k ∉ dem := by
      intro hmem
      obtain ⟨e2, he2, hprobe, _⟩ := hdem_char k hmem
      rw [hk] at he2
      injection he2 with he2
      rw [he2] at hne
      rw [hprobe] at hne
      exact Bool.true_eq_false.mp hne
    rw [if_neg (by simpa using hkdem)]
  · intro k e hk
    rw [markDemoted_getElem? dem ps 0 k, hk]
    simp only [Option.map_some']
    by_cases hmem : (0 + k) ∈ dem
    · right; rw [if_pos hmem]
    · left; rw [if_neg hmem]

/-- Score comparison between a kept entry and a demoted entry: the
demotion pass only drops entries that rank below every kept one. -/
lemma markDemoted_scores (ps : List RankEntry) (sorted : List (ℕ × RankEntry))
    (n : ℕ) (dem : List ℕ) (adj : ℕ × RankEntry → ℚ)
    (hdem : dem = (sorted.drop n).map Prod.fst)
    (hperm : sorted.Perm (entryCandidates ps))
    (hpw : List.Pairwise (fun a b => adj b ≤ adj a) sorted) :
    ∀ (k : ℕ) (e : RankEntry) (kk : ℕ) (ee : RankEntry),
      ps[k]? = some e → ps[kk]? = some ee
      → (markDemoted dem 0 ps)[k]? = some e
      → (e.proposal.action == "PROBE_BUY") = true
      → (markDemoted dem 0 ps)[kk]?
        = some { ee with proposal := demoteRankedOut ee.proposal }
      → adj (kk, ee) ≤ adj (k, e) := by
  have hmem_sorted : ∀ p ∈ sorted,
      ps[p.1]? = some p.2 ∧ (p.2.proposal.action == "PROBE_BUY") = true := by
    intro p hp
    have hp2 := (hperm.mem_iff).mp hp
    rw [entryCandidates, List.mem_filter] at hp2
    exact ⟨mem_enumFrom_zero hp2.1, hp2.2⟩
  intro k e kk ee hk hkk hkept hprobe hdemoted
  have hknot : k ∉ dem := by
    intro hmem
    rw [markDemoted_getElem? dem ps 0 k, hk] at hkept
    simp only [Option.map_some'] at hkept
    rw [if_pos (by simpa using hmem)] at hkept
    injection hkept with hkept
    have haction := congrArg (fun r => r.proposal.action) hkept
    simp only [demoteRankedOut] at haction
    rw [← haction] at hprobe
    exact absurd hprobe (by simp)
  have hmemk : (k, e) ∈ sorted.take n := by
    have hmem0 : (k, e) ∈ sorted := by
      apply (hperm.mem_iff).mpr
      rw [entryCandidates, List.mem_filter]
      exact ⟨enumFrom_zero_mem hk, hprobe⟩
    rw [← List.take_append_drop n sorted] at hmem0
    rcases List.mem_append.mp hmem0 with h | h
    · exact h
    · exact absurd (by rw [hdem]; exact List.mem_map_of_mem Prod.fst h) hknot
  have hkkdem : kk ∈ dem := by
    by_contra hno
    rw [markDemoted_getElem? dem ps 0 kk, hkk] at hdemoted
    simp only [Option.map_some'] at hdemoted
    rw [if_neg (by simpa using hno)] at hdemoted
    injection hdemoted with hdemoted
    have hlen := congrArg (fun r => r.proposal.reason_codes.length) hdemoted
    simp [demoteRankedOut] at hlen
  obtain ⟨p, hp, hpk⟩ := List.mem_map.mp (by rw [hdem] at hkkdem; exact hkkdem)
  have hpe : p = (kk, ee) := by
    have h1 := (hmem_sorted p (List.mem_of_mem_drop hp)).1
    rw [hpk, hkk] at h1
    injection h1 with h1
    calc p = (p.1, p.2) := rfl
      _ = (kk, ee) := by rw [hpk, h1]
  have hpw2 := hpw
  rw [← List.take_append_drop n sorted, List.pairwise_append] at hpw2
  exact hpw2.2.2 (k, e) hmemk (kk, ee) (hpe ▸ hp)

/-- C5: with a positive `top_n_per_tick` N, at least
`max(1, min_candidates_before_rank)` and at least N PROBE_BUY candidates,
ranking leaves exactly N proposals with action PROBE_BUY, rewrites every
other candidate to HOLD with RANKED_OUT appended to its reasons, leaves
non-candidates untouched, and every kept candidate's adjusted momentum
score is at least every demoted candidate's; with `top_n_per_tick ≤ 0` or
too few candidates, ranking changes nothing. -/
theorem rank_entry_proposals_top_n :
    (∀ (raw : RankEntry → ℚ) (cfg : Config) (ps : List RankEntry),
      0 < cfg.top_n_per_tick
      → max 1 cfg.min_candidates_before_rank ≤ ((entryCandidates ps).length : ℤ)
      → cfg.top_n_per_tick ≤ ((entryCandidates ps).length : ℤ)
      → ((rank_entry_proposals raw cfg ps).countP
          fun e => e.proposal.action == "PROBE_BUY") = cfg.top_n_per_tick.toNat
        ∧ (∀ (k : ℕ) (e : RankEntry), ps[k]? = some e
          → (e.proposal.action == "PROBE_BUY") = false
          → (rank_entry_proposals raw cfg ps)[k]? = some e)
        ∧ (∀ (k : ℕ) (e : RankEntry), ps[k]? = some e
          → (rank_entry_proposals raw cfg ps)[k]? = some e
            ∨ (rank_entry_proposals raw cfg ps)[k]?
              = some { e with proposal := demoteRankedOut e.proposal })
        ∧ (∀ (k : ℕ) (e : RankEntry) (kk : ℕ) (ee : RankEntry),
          ps[k]? = some e → ps[kk]? = some ee
          → (rank_entry_proposals raw cfg ps)[k]? = some e
          → (e.proposal.action == "PROBE_BUY") = true
          → (rank_entry_proposals raw cfg ps)[kk]?
            = some { ee with proposal := demoteRankedOut ee.proposal }
          → applyScoreAdjustments (raw ee) ee.features cfg
            ≤ applyScoreAdjustments (raw e) e.features cfg))
    ∧ (∀ (raw : RankEntry → ℚ) (cfg : Config) (ps : List RankEntry),
      (cfg.top_n_per_tick ≤ 0
        ∨ ((entryCandidates ps).length : ℤ) < max 1 cfg.min_candidates_before_rank)
      → rank_entry_proposals raw cfg ps = ps) := by
  constructor
  · intro raw cfg ps htop hmin hN
    have hcond : ¬(cfg.top_n_per_tick ≤ 0
        ∨ ((entryCandidates ps).length : ℤ) < max 1 cfg.min_candidates_before_rank) := by
      push_neg
      exact ⟨htop, hmin⟩
    have hres : rank_entry_proposals raw cfg ps
        = markDemoted ((((entryCandidates ps).mergeSort
            (rankEntryLe (entryAdj raw cfg))).drop cfg.top_n_per_tick.toNat).map Prod.fst)
            0 ps := by
      simp only [rank_entry_proposals]
      rw [if_neg hcond]
    have hperm := List.mergeSort_perm (entryCandidates ps) (rankEntryLe (entryAdj raw cfg))
    have hlen : cfg.top_n_per_tick.toNat
        ≤ ((entryCandidates ps).mergeSort (rankEntryLe (entryAdj raw cfg))).length := by
      rw [hperm.length_eq]
      exact Int.toNat_le.mpr hN
    obtain ⟨hcount, hii, hiii⟩ := markDemoted_from_sorted ps
      ((entryCandidates ps).mergeSort (rankEntryLe (entryAdj raw cfg)))
      cfg.top_n_per_tick.toNat _ rfl hperm hlen
    have htrans : ∀ a b c : ℕ × RankEntry,
        rankEntryLe (entryAdj raw cfg) a b = true
        → rankEntryLe (entryAdj raw cfg) b c = true
        → rankEntryLe (entryAdj raw cfg) a c = true := fun a b c hab hbc => by
      simp only [rankEntryLe, decide_eq_true_eq] at *
      exact le_trans hbc hab
    have htotal : ∀ a b : ℕ × RankEntry,
        (rankEntryLe (entryAdj raw cfg) a b || rankEntryLe (entryAdj raw cfg) b a)
          = true := fun a b => by
      simp only [rankEntryLe, Bool.or_eq_true, decide_eq_true_eq]
      exact le_total _ _
    have hpw0 := List.sorted_mergeSort htrans htotal (entryCandidates ps)
    have hpw : List.Pairwise
        (fun a b => entryAdj raw cfg b ≤ entryAdj raw cfg a)
        ((entryCandidates ps).mergeSort (rankEntryLe (entryAdj raw cfg))) :=
      hpw0.imp fun h => by simpa [rankEntryLe] using h
    have hiv := markDemoted_scores ps
      ((entryCandidates ps).mergeSort (rankEntryLe (entryAdj raw cfg)))
      cfg.top_n_per_tick.toNat _ (entryAdj raw cfg) rfl hperm hpw
    refine ⟨by rw [hres]; exact hcount, ?_, ?_, ?_⟩
    · intro k e hk hne
      rw [hres]
      exact hii k e hk hne
    · intro k e hk
      rw [hres]
      exact hiii k e hk
    · intro k e kk ee hk hkk hkept hprobe hdemoted
      rw [hres] at hkept hdemoted
      exact hiv k e kk ee hk hkk hkept hprobe hdemoted
  · intro raw cfg ps hdeg
    simp only [rank_entry_proposals]
    rw [if_pos hdeg]

/-- First PROBE_BUY candidate for the ranking witness. -/
def rkA : RankEntry := ⟨⟨"PROBE_BUY", ["CAND_A"], [], none⟩, [], emptyFeatures⟩

/-- Second PROBE_BUY candidate for the ranking witness. -/
def rkB : RankEntry := ⟨⟨"PROBE_BUY", ["CAND_B"], [], none⟩, [], emptyFeatures⟩

/-- Third PROBE_BUY candidate for the ranking witness. -/
def rkC : RankEntry := ⟨⟨"PROBE_BUY", ["CAND_C"], [], none⟩, [], emptyFeatures⟩

/-- Witness for C5: with `top_n_per_tick = 1` and three simultaneous
PROBE_BUY candidates, exactly one proposal stays PROBE_BUY. -/
theorem rank_entry_proposals_top_n_witness :
    0 < sampleConfig.top_n_per_tick
    ∧ max 1 sampleConfig.min_candidates_before_rank
      ≤ ((entryCandidates [rkA, rkB, rkC]).length : ℤ)
    ∧ sampleConfig.top_n_per_tick ≤ ((entryCandidates [rkA, rkB, rkC]).length : ℤ)
    ∧ ((rank_entry_proposals (fun _ => 0) sampleConfig [rkA, rkB, rkC]).countP
        fun e => e.proposal.action == "PROBE_BUY") = 1 := by
  have hc : entryCandidates [rkA, rkB, rkC] = [(0, rkA), (1, rkB), (2, rkC)] := rfl
  have h1 : 0 < sampleConfig.top_n_per_tick := by norm_num [sampleConfig]
  have h2 : max 1 sampleConfig.min_candidates_before_rank
      ≤ ((entryCandidates [rkA, rkB, rkC]).length : ℤ) := by
    rw [hc]
    norm_num [sampleConfig]
  have h3 : sampleConfig.top_n_per_tick
      ≤ ((entryCandidates [rkA, rkB, rkC]).length : ℤ) := by
    rw [hc]
    norm_num [sampleConfig]
  have h4 := (rank_entry_proposals_top_n.1 (fun _ => 0) sampleConfig
    [rkA, rkB, rkC] h1 h2 h3).1
  refine ⟨h1, h2, h3, ?_⟩
  rw [h4]
  norm_num [sampleConfig]

end MemeTrader
